import Mathlib

/-!
Shallow embedding of the `evo-common` coordination-protocol crate:
the JSON data model, the serde-derive (de)serialization semantics for the
message schemas in `src/messages.rs`, `src/config.rs`, `src/skill.rs`,
and the task-lifecycle state machine described by the specification.
-/

/-- A JSON value, as produced/consumed by serde_json.  Objects are modelled
as association lists; numbers as exact rationals (JSON numerals are decimal
literals, and no claim exercises float rounding). -/
inductive Json where
  | null
  | bool (b : Bool)
  | num (n : Rat)
  | str (s : String)
  | arr (elems : List Json)
  | obj (fields : List (String × Json))

namespace Json

/-- First-match field lookup in a JSON object, as serde's field visitor
resolves a struct field name against the incoming map. -/
def lookup (l : List (String × Json)) (k : String) : Option Json :=
  match l with
  | [] => none
  | (k2, v) :: rest => if k2 = k then some v else lookup rest k

/-- Deserialize a `String` field. -/
def asString : Json → Option String
  | .str s => some s
  | _ => none

/-- Deserialize a `bool` field. -/
def asBool : Json → Option Bool
  | .bool b => some b
  | _ => none

/-- Deserialize an `f64` field (exact-rational model). -/
def asNum : Json → Option Rat
  | .num n => some n
  | _ => none

/-- Deserialize a `u32` field: the JSON number must be an integer in
`[0, 2^32)`. -/
def asU32 : Json → Option Nat
  | .num n => if n.den = 1 ∧ 0 ≤ n.num ∧ n.num < 4294967296 then some n.num.toNat else none
  | _ => none

/-- Deserialize a `serde_json::Value` field: any JSON value is accepted. -/
def asValue : Json → Option Json := fun j => some j

/-- Deserialize a `Vec<T>` field from a JSON array. -/
def asArr (dec : Json → Option α) : Json → Option (List α)
  | .arr xs => xs.mapM dec
  | _ => none

/-- Deserialize a `HashMap<String, String>` field (modelled as an
association list preserving the incoming entry order). -/
def asStrMap : Json → Option (List (String × String))
  | .obj l => l.mapM (fun p => (asString p.2).map (fun v => (p.1, v)))
  | _ => none

/-- A required struct field: absence is a deserialization error. -/
def reqField (l : List (String × Json)) (name : String) (dec : Json → Option α) : Option α :=
  (lookup l name).bind dec

/-- A `#[serde(default)]` (or `default = "f"`) struct field: absence yields
the default, presence runs the field's deserializer. -/
def defField (l : List (String × Json)) (name : String) (dec : Json → Option α) (d : α) :
    Option α :=
  match lookup l name with
  | none => some d
  | some j => dec j

/-- A `#[serde(default)] Option<T>` struct field: absent or `null` yields
`none`, any other value must deserialize as `T`. -/
def optField (l : List (String × Json)) (name : String) (dec : Json → Option α) :
    Option (Option α) :=
  match lookup l name with
  | none => some none
  | some .null => some none
  | some j => (dec j).map some

end Json

/-- serde's `rename_all = "snake_case"` rule on an identifier's characters:
every character is lowercased and an underscore is inserted before each
uppercase character that is not the first. -/
def snakeCaseChars : List Char → Bool → List Char
  | [], _ => []
  | c :: rest, first =>
    if c.isUpper ∧ ¬first then '_' :: c.toLower :: snakeCaseChars rest false
    else c.toLower :: snakeCaseChars rest false

/-- serde's `rename_all = "snake_case"` rule:
`PreLoad → pre_load`, `ClaudeCode → claude_code`. -/
def snakeCase (s : String) : String :=
  String.mk (snakeCaseChars s.toList true)

/-- serde's `rename_all = "UPPERCASE"` rule: every character uppercased. -/
def upperCase (s : String) : String :=
  String.mk (s.toList.map Char.toUpper)

-- ─── Protocol enums (src/messages.rs, src/config.rs, src/skill.rs) ──────────

/-- `enum AgentRole` (messages.rs), `#[serde(rename_all = "snake_case")]`;
`User(String)` is a payload-carrying (newtype) variant. -/
inductive AgentRole where
  | skillManage
  | learning
  | preLoad
  | building
  | evaluation
  | user (label : String)
deriving DecidableEq

/-- Rust source identifier of each `AgentRole` variant. -/
def AgentRole.variantName : AgentRole → String
  | .skillManage => "SkillManage"
  | .learning => "Learning"
  | .preLoad => "PreLoad"
  | .building => "Building"
  | .evaluation => "Evaluation"
  | .user _ => "User"

/-- Wire token of an `AgentRole` variant. -/
def AgentRole.wire (r : AgentRole) : String := snakeCase r.variantName

/-- The unit variants of `AgentRole`, in declaration order. -/
def AgentRole.unitVariants : List AgentRole :=
  [.skillManage, .learning, .preLoad, .building, .evaluation]

/-- serde externally-tagged serialization of `AgentRole`: unit variants
become their wire token, `User(s)` becomes a one-entry map. -/
def AgentRole.encode : AgentRole → Json
  | .user s => .obj [(snakeCase "User", .str s)]
  | r => .str r.wire

/-- serde externally-tagged deserialization of `AgentRole`: a string names a
unit variant; a one-entry map whose key is `"user"` carries the newtype
payload; everything else (including an unknown variant string) is an error. -/
def AgentRole.decode : Json → Option AgentRole
  | .str s => AgentRole.unitVariants.find? (fun r => r.wire == s)
  | .obj [(k, v)] =>
    if k = snakeCase "User" then
      match v with
      | .str s => some (.user s)
      | _ => none
    else
      match AgentRole.unitVariants.find? (fun r => r.wire == k) with
      | some r => match v with | .null => some r | _ => none
      | none => none
  | _ => none

/-- `enum RunnerStatus` (messages.rs), `#[serde(rename_all = "snake_case")]`. -/
inductive RunnerStatus where
  | starting
  | ready
  | busy
  | error
  | shutting
deriving DecidableEq

/-- Rust source identifier of each `RunnerStatus` variant. -/
def RunnerStatus.variantName : RunnerStatus → String
  | .starting => "Starting"
  | .ready => "Ready"
  | .busy => "Busy"
  | .error => "Error"
  | .shutting => "Shutting"

/-- Wire token of a `RunnerStatus` variant. -/
def RunnerStatus.wire (r : RunnerStatus) : String := snakeCase r.variantName

/-- All `RunnerStatus` variants, in declaration order. -/
def RunnerStatus.variants : List RunnerStatus := [.starting, .ready, .busy, .error, .shutting]

/-- Serialization of `RunnerStatus`. -/
def RunnerStatus.encode (r : RunnerStatus) : Json := .str r.wire

/-- Deserialization of `RunnerStatus`: a string, or serde_json's one-entry
map form with a `null` payload, naming a variant. -/
def RunnerStatus.decode : Json → Option RunnerStatus
  | .str s => RunnerStatus.variants.find? (fun r => r.wire == s)
  | .obj [(k, .null)] => RunnerStatus.variants.find? (fun r => r.wire == k)
  | _ => none

/-- `enum SkillResult` (messages.rs), `#[serde(rename_all = "snake_case")]`;
`Failure(String)` and `Partial(String)` are payload-carrying variants. -/
inductive SkillResult where
  | success
  | failure (reason : String)
  | partialResult (reason : String)
deriving DecidableEq

/-- Rust source identifier of each `SkillResult` variant. -/
def SkillResult.variantName : SkillResult → String
  | .success => "Success"
  | .failure _ => "Failure"
  | .partialResult _ => "Partial"

/-- Wire token of a `SkillResult` variant. -/
def SkillResult.wire (r : SkillResult) : String := snakeCase r.variantName

/-- serde externally-tagged serialization of `SkillResult`. -/
def SkillResult.encode : SkillResult → Json
  | .success => .str (snakeCase "Success")
  | .failure s => .obj [(snakeCase "Failure", .str s)]
  | .partialResult s => .obj [(snakeCase "Partial", .str s)]

/-- serde externally-tagged deserialization of `SkillResult`. -/
def SkillResult.decode : Json → Option SkillResult
  | .str s => if s = snakeCase "Success" then some .success else none
  | .obj [(k, v)] =>
    if k = snakeCase "Failure" then
      match v with | .str s => some (.failure s) | _ => none
    else if k = snakeCase "Partial" then
      match v with | .str s => some (.partialResult s) | _ => none
    else if k = snakeCase "Success" then
      match v with | .null => some .success | _ => none
    else none
  | _ => none

/-- `enum PipelineStage` (messages.rs), `#[serde(rename_all = "snake_case")]`. -/
inductive PipelineStage where
  | learning
  | building
  | preLoad
  | evaluation
  | skillManage
deriving DecidableEq

/-- Rust source identifier of each `PipelineStage` variant. -/
def PipelineStage.variantName : PipelineStage → String
  | .learning => "Learning"
  | .building => "Building"
  | .preLoad => "PreLoad"
  | .evaluation => "Evaluation"
  | .skillManage => "SkillManage"

/-- Wire token of a `PipelineStage` variant. -/
def PipelineStage.wire (r : PipelineStage) : String := snakeCase r.variantName

/-- All `PipelineStage` variants, in declaration order. -/
def PipelineStage.variants : List PipelineStage :=
  [.learning, .building, .preLoad, .evaluation, .skillManage]

/-- Serialization of `PipelineStage`. -/
def PipelineStage.encode (r : PipelineStage) : Json := .str r.wire

/-- Deserialization of `PipelineStage`. -/
def PipelineStage.decode : Json → Option PipelineStage
  | .str s => PipelineStage.variants.find? (fun r => r.wire == s)
  | .obj [(k, .null)] => PipelineStage.variants.find? (fun r => r.wire == k)
  | _ => none

/-- `enum PipelineRunStatus` (messages.rs), `#[serde(rename_all = "snake_case")]`. -/
inductive PipelineRunStatus where
  | running
  | completed
  | failed
  | timedOut
deriving DecidableEq

/-- Rust source identifier of each `PipelineRunStatus` variant. -/
def PipelineRunStatus.variantName : PipelineRunStatus → String
  | .running => "Running"
  | .completed => "Completed"
  | .failed => "Failed"
  | .timedOut => "TimedOut"

/-- Wire token of a `PipelineRunStatus` variant. -/
def PipelineRunStatus.wire (r : PipelineRunStatus) : String := snakeCase r.variantName

/-- All `PipelineRunStatus` variants, in declaration order. -/
def PipelineRunStatus.variants : List PipelineRunStatus :=
  [.running, .completed, .failed, .timedOut]

/-- Serialization of `PipelineRunStatus`. -/
def PipelineRunStatus.encode (r : PipelineRunStatus) : Json := .str r.wire

/-- Deserialization of `PipelineRunStatus`. -/
def PipelineRunStatus.decode : Json → Option PipelineRunStatus
  | .str s => PipelineRunStatus.variants.find? (fun r => r.wire == s)
  | .obj [(k, .null)] => PipelineRunStatus.variants.find? (fun r => r.wire == k)
  | _ => none

/-- `enum TaskStatus` (messages.rs), `#[serde(rename_all = "snake_case")]`. -/
inductive TaskStatus where
  | pending
  | inProgress
  | completed
  | failed
  | cancelled
deriving DecidableEq

/-- Rust source identifier of each `TaskStatus` variant. -/
def TaskStatus.variantName : TaskStatus → String
  | .pending => "Pending"
  | .inProgress => "InProgress"
  | .completed => "Completed"
  | .failed => "Failed"
  | .cancelled => "Cancelled"

/-- Wire token of a `TaskStatus` variant. -/
def TaskStatus.wire (r : TaskStatus) : String := snakeCase r.variantName

/-- All `TaskStatus` variants, in declaration order. -/
def TaskStatus.variants : List TaskStatus :=
  [.pending, .inProgress, .completed, .failed, .cancelled]

/-- Serialization of `TaskStatus`. -/
def TaskStatus.encode (r : TaskStatus) : Json := .str r.wire

/-- Deserialization of `TaskStatus`. -/
def TaskStatus.decode : Json → Option TaskStatus
  | .str s => TaskStatus.variants.find? (fun r => r.wire == s)
  | .obj [(k, .null)] => TaskStatus.variants.find? (fun r => r.wire == k)
  | _ => none

/-- `enum MemoryScope` (messages.rs), `#[serde(rename_all = "snake_case")]`. -/
inductive MemoryScope where
  | system
  | agent
  | pipeline
  | skill
deriving DecidableEq

/-- Rust source identifier of each `MemoryScope` variant. -/
def MemoryScope.variantName : MemoryScope → String
  | .system => "System"
  | .agent => "Agent"
  | .pipeline => "Pipeline"
  | .skill => "Skill"

/-- Wire token of a `MemoryScope` variant. -/
def MemoryScope.wire (r : MemoryScope) : String := snakeCase r.variantName

/-- All `MemoryScope` variants, in declaration order. -/
def MemoryScope.variants : List MemoryScope := [.system, .agent, .pipeline, .skill]

/-- Serialization of `MemoryScope`. -/
def MemoryScope.encode (r : MemoryScope) : Json := .str r.wire

/-- Deserialization of `MemoryScope`. -/
def MemoryScope.decode : Json → Option MemoryScope
  | .str s => MemoryScope.variants.find? (fun r => r.wire == s)
  | .obj [(k, .null)] => MemoryScope.variants.find? (fun r => r.wire == k)
  | _ => none

/-- `enum MemoryCategory` (messages.rs), `#[serde(rename_all = "snake_case")]`. -/
inductive MemoryCategory where
  | case
  | pattern
  | fact
  | preference
  | resource
  | event
deriving DecidableEq

/-- Rust source identifier of each `MemoryCategory` variant. -/
def MemoryCategory.variantName : MemoryCategory → String
  | .case => "Case"
  | .pattern => "Pattern"
  | .fact => "Fact"
  | .preference => "Preference"
  | .resource => "Resource"
  | .event => "Event"

/-- Wire token of a `MemoryCategory` variant. -/
def MemoryCategory.wire (r : MemoryCategory) : String := snakeCase r.variantName

/-- All `MemoryCategory` variants, in declaration order. -/
def MemoryCategory.variants : List MemoryCategory :=
  [.case, .pattern, .fact, .preference, .resource, .event]

/-- Serialization of `MemoryCategory`. -/
def MemoryCategory.encode (r : MemoryCategory) : Json := .str r.wire

/-- Deserialization of `MemoryCategory`. -/
def MemoryCategory.decode : Json → Option MemoryCategory
  | .str s => MemoryCategory.variants.find? (fun r => r.wire == s)
  | .obj [(k, .null)] => MemoryCategory.variants.find? (fun r => r.wire == k)
  | _ => none

/-- `enum ProviderType` (config.rs), `#[serde(rename_all = "snake_case")]`,
`#[default] OpenAiCompatible`. -/
inductive ProviderType where
  | openAiCompatible
  | anthropic
  | cursor
  | claudeCode
  | codexCli
deriving DecidableEq

/-- Rust source identifier of each `ProviderType` variant. -/
def ProviderType.variantName : ProviderType → String
  | .openAiCompatible => "OpenAiCompatible"
  | .anthropic => "Anthropic"
  | .cursor => "Cursor"
  | .claudeCode => "ClaudeCode"
  | .codexCli => "CodexCli"

/-- Wire token of a `ProviderType` variant. -/
def ProviderType.wire (r : ProviderType) : String := snakeCase r.variantName

/-- All `ProviderType` variants, in declaration order. -/
def ProviderType.variants : List ProviderType :=
  [.openAiCompatible, .anthropic, .cursor, .claudeCode, .codexCli]

/-- Serialization of `ProviderType`. -/
def ProviderType.encode (r : ProviderType) : Json := .str r.wire

/-- Deserialization of `ProviderType`. -/
def ProviderType.decode : Json → Option ProviderType
  | .str s => ProviderType.variants.find? (fun r => r.wire == s)
  | .obj [(k, .null)] => ProviderType.variants.find? (fun r => r.wire == k)
  | _ => none

/-- `enum HttpMethod` (skill.rs), `#[serde(rename_all = "UPPERCASE")]` —
note: UPPERCASE, not snake_case. -/
inductive HttpMethod where
  | get
  | post
  | put
  | delete
  | patch
deriving DecidableEq

/-- Rust source identifier of each `HttpMethod` variant. -/
def HttpMethod.variantName : HttpMethod → String
  | .get => "Get"
  | .post => "Post"
  | .put => "Put"
  | .delete => "Delete"
  | .patch => "Patch"

/-- Wire token of an `HttpMethod` variant: the UPPERCASE rename rule. -/
def HttpMethod.wire (r : HttpMethod) : String := upperCase r.variantName

/-- All `HttpMethod` variants, in declaration order. -/
def HttpMethod.variants : List HttpMethod := [.get, .post, .put, .delete, .patch]

/-- Serialization of `HttpMethod`. -/
def HttpMethod.encode (r : HttpMethod) : Json := .str r.wire

/-- Deserialization of `HttpMethod`. -/
def HttpMethod.decode : Json → Option HttpMethod
  | .str s => HttpMethod.variants.find? (fun r => r.wire == s)
  | .obj [(k, .null)] => HttpMethod.variants.find? (fun r => r.wire == k)
  | _ => none

-- ─── Message structs and their serde-derive deserializers ────────────────────

/-- `struct AgentRegister` (messages.rs): all three fields required. -/
structure AgentRegister where
  agent_id : String
  role : AgentRole
  capabilities : List String
deriving DecidableEq

/-- Deserialization of `AgentRegister`; unknown fields are ignored (no
`deny_unknown_fields`), missing required fields are an error. -/
def AgentRegister.decode : Json → Option AgentRegister
  | .obj l => do
    let agent_id ← Json.reqField l "agent_id" Json.asString
    let role ← Json.reqField l "role" AgentRole.decode
    let capabilities ← Json.reqField l "capabilities" (Json.asArr Json.asString)
    pure ⟨agent_id, role, capabilities⟩
  | _ => none

/-- `struct TaskCreate` (messages.rs): `task_type` required; `agent_id` and
`parent_id` defaulted options; `payload` defaulted to
`default_empty_object()`. -/
structure TaskCreate where
  task_type : String
  agent_id : Option String
  payload : Json
  parent_id : Option String

/-- `default_empty_object()` (messages.rs): the empty JSON object. -/
def default_empty_object : Json := .obj []

/-- Deserialization of `TaskCreate`. -/
def TaskCreate.decode : Json → Option TaskCreate
  | .obj l => do
    let task_type ← Json.reqField l "task_type" Json.asString
    let agent_id ← Json.optField l "agent_id" Json.asString
    let payload ← Json.defField l "payload" Json.asValue default_empty_object
    let parent_id ← Json.optField l "parent_id" Json.asString
    pure ⟨task_type, agent_id, payload, parent_id⟩
  | _ => none

/-- `struct TaskUpdate` (messages.rs): `task_id` required; `status`,
`agent_id`, `payload` defaulted options. -/
structure TaskUpdate where
  task_id : String
  status : Option TaskStatus
  agent_id : Option String
  payload : Option Json

/-- Deserialization of `TaskUpdate`. -/
def TaskUpdate.decode : Json → Option TaskUpdate
  | .obj l => do
    let task_id ← Json.reqField l "task_id" Json.asString
    let status ← Json.optField l "status" TaskStatus.decode
    let agent_id ← Json.optField l "agent_id" Json.asString
    let payload ← Json.optField l "payload" Json.asValue
    pure ⟨task_id, status, agent_id, payload⟩
  | _ => none

/-- `default_task_limit()` (messages.rs): 50. -/
def default_task_limit : Nat := 50

/-- `default_memory_limit()` (messages.rs): 20. -/
def default_memory_limit : Nat := 20

/-- `struct TaskList` (messages.rs): every field defaulted; `limit` defaults
via `default_task_limit`. -/
structure TaskList where
  limit : Nat
  status : Option TaskStatus
  agent_id : Option String
  parent_id : Option String
deriving DecidableEq

/-- Deserialization of `TaskList`. -/
def TaskList.decode : Json → Option TaskList
  | .obj l => do
    let limit ← Json.defField l "limit" Json.asU32 default_task_limit
    let status ← Json.optField l "status" TaskStatus.decode
    let agent_id ← Json.optField l "agent_id" Json.asString
    let parent_id ← Json.optField l "parent_id" Json.asString
    pure ⟨limit, status, agent_id, parent_id⟩
  | _ => none

/-- `struct MemoryTierEntry` (messages.rs): both fields required. -/
structure MemoryTierEntry where
  tier : String
  content : String
deriving DecidableEq

/-- Deserialization of `MemoryTierEntry`. -/
def MemoryTierEntry.decode : Json → Option MemoryTierEntry
  | .obj l => do
    let tier ← Json.reqField l "tier" Json.asString
    let content ← Json.reqField l "content" Json.asString
    pure ⟨tier, content⟩
  | _ => none

/-- `struct MemoryStore` (messages.rs): `scope` and `category` required;
every other field defaulted (`metadata` via `default_empty_object`). -/
structure MemoryStore where
  scope : MemoryScope
  category : MemoryCategory
  key : String
  metadata : Json
  tags : List String
  agent_id : String
  run_id : String
  skill_id : String
  relevance_score : Rat
  tiers : List MemoryTierEntry
  task_id : Option String

/-- Deserialization of `MemoryStore`. -/
def MemoryStore.decode : Json → Option MemoryStore
  | .obj l => do
    let scope ← Json.reqField l "scope" MemoryScope.decode
    let category ← Json.reqField l "category" MemoryCategory.decode
    let key ← Json.defField l "key" Json.asString ""
    let metadata ← Json.defField l "metadata" Json.asValue default_empty_object
    let tags ← Json.defField l "tags" (Json.asArr Json.asString) []
    let agent_id ← Json.defField l "agent_id" Json.asString ""
    let run_id ← Json.defField l "run_id" Json.asString ""
    let skill_id ← Json.defField l "skill_id" Json.asString ""
    let relevance_score ← Json.defField l "relevance_score" Json.asNum 0
    let tiers ← Json.defField l "tiers" (Json.asArr MemoryTierEntry.decode) []
    let task_id ← Json.optField l "task_id" Json.asString
    pure ⟨scope, category, key, metadata, tags, agent_id, run_id, skill_id,
          relevance_score, tiers, task_id⟩
  | _ => none

/-- `struct MemoryQuery` (messages.rs): `query` required; optional filters
defaulted; `limit` defaults via `default_memory_limit`. -/
structure MemoryQuery where
  query : String
  scope : Option MemoryScope
  category : Option MemoryCategory
  agent_id : Option String
  tier : Option String
  task_id : Option String
  limit : Nat
deriving DecidableEq

/-- Deserialization of `MemoryQuery`. -/
def MemoryQuery.decode : Json → Option MemoryQuery
  | .obj l => do
    let query ← Json.reqField l "query" Json.asString
    let scope ← Json.optField l "scope" MemoryScope.decode
    let category ← Json.optField l "category" MemoryCategory.decode
    let agent_id ← Json.optField l "agent_id" Json.asString
    let tier ← Json.optField l "tier" Json.asString
    let task_id ← Json.optField l "task_id" Json.asString
    let limit ← Json.defField l "limit" Json.asU32 default_memory_limit
    pure ⟨query, scope, category, agent_id, tier, task_id, limit⟩
  | _ => none

/-- `struct TaskOutput` (messages.rs): `task_id`, `request_id`, `source`,
`delta`, `chunk_index` required; `is_final` defaulted (to `false`). -/
structure TaskOutput where
  task_id : String
  request_id : String
  source : String
  delta : String
  chunk_index : Nat
  is_final : Bool
deriving DecidableEq

/-- Deserialization of `TaskOutput`. -/
def TaskOutput.decode : Json → Option TaskOutput
  | .obj l => do
    let task_id ← Json.reqField l "task_id" Json.asString
    let request_id ← Json.reqField l "request_id" Json.asString
    let source ← Json.reqField l "source" Json.asString
    let delta ← Json.reqField l "delta" Json.asString
    let chunk_index ← Json.reqField l "chunk_index" Json.asU32
    let is_final ← Json.defField l "is_final" Json.asBool false
    pure ⟨task_id, request_id, source, delta, chunk_index, is_final⟩
  | _ => none

/-- `struct RateLimitConfig` (config.rs): both fields required. -/
structure RateLimitConfig where
  requests_per_minute : Nat
  burst_size : Nat
deriving DecidableEq

/-- Deserialization of `RateLimitConfig`. -/
def RateLimitConfig.decode : Json → Option RateLimitConfig
  | .obj l => do
    let requests_per_minute ← Json.reqField l "requests_per_minute" Json.asU32
    let burst_size ← Json.reqField l "burst_size" Json.asU32
    pure ⟨requests_per_minute, burst_size⟩
  | _ => none

/-- `struct ProviderConfig` (config.rs): `name`, `base_url`, `enabled`
required; `api_key_envs`, `extra_headers`, `models` default to empty,
`provider_type` to `ProviderType::default()` (= `OpenAiCompatible`),
`rate_limit` to `None`. -/
structure ProviderConfig where
  name : String
  base_url : String
  api_key_envs : List String
  enabled : Bool
  provider_type : ProviderType
  extra_headers : List (String × String)
  rate_limit : Option RateLimitConfig
  models : List String

/-- Deserialization of `ProviderConfig`. -/
def ProviderConfig.decode : Json → Option ProviderConfig
  | .obj l => do
    let name ← Json.reqField l "name" Json.asString
    let base_url ← Json.reqField l "base_url" Json.asString
    let api_key_envs ← Json.defField l "api_key_envs" (Json.asArr Json.asString) []
    let enabled ← Json.reqField l "enabled" Json.asBool
    let provider_type ← Json.defField l "provider_type" ProviderType.decode .openAiCompatible
    let extra_headers ← Json.defField l "extra_headers" Json.asStrMap []
    let rate_limit ← Json.optField l "rate_limit" RateLimitConfig.decode
    let models ← Json.defField l "models" (Json.asArr Json.asString) []
    pure ⟨name, base_url, api_key_envs, enabled, provider_type, extra_headers,
          rate_limit, models⟩
  | _ => none

-- ─── Task lifecycle state machine ────────────────────────────────────────────

/-- Whether a `TaskStatus` is terminal (`Completed`, `Failed`, `Cancelled`). -/
def TaskStatus.isTerminal : TaskStatus → Bool
  | .completed => true
  | .failed => true
  | .cancelled => true
  | _ => false

/-- Modelled from the spec: the crate only declares the `TaskStatus` enum and
the `TaskUpdate` message; the transition legality it prescribes
(`Pending → InProgress → {Completed | Failed | Cancelled}`, with release of
an `InProgress` task back to `Pending`) is enforced by the consuming
orchestrator, whose code is not in this crate. -/
def taskTransitionAllowed : TaskStatus → TaskStatus → Bool
  | .pending, .inProgress => true
  | .inProgress, .completed => true
  | .inProgress, .failed => true
  | .inProgress, .cancelled => true
  | .inProgress, .pending => true
  | _, _ => false

/-- Modelled from the spec: applying a `TaskUpdate` to a task's current
status.  An update carrying no `status` (or the same status — idempotent
redelivery) leaves the status unchanged; an update carrying a legally
reachable different status moves to it; any other update is rejected
(`none`), leaving the task unchanged. -/
def applyTaskUpdate (cur : TaskStatus) (u : TaskUpdate) : Option TaskStatus :=
  match u.status with
  | none => some cur
  | some s =>
    if s = cur then some cur
    else if taskTransitionAllowed cur s then some s
    else none

-- ─── Remaining message schemas (src/messages.rs) ─────────────────────────────

/-- Deserialize a `HashMap<String, serde_json::Value>` field (modelled as an
association list preserving the incoming entry order). -/
def Json.asObjMap : Json → Option (List (String × Json))
  | .obj l => some l
  | _ => none

/-- Deserialize a `u64` field: the JSON number must be an integer in
`[0, 2^64)`. -/
def Json.asU64 : Json → Option Nat
  | .num n =>
    if n.den = 1 ∧ 0 ≤ n.num ∧ n.num < 18446744073709551616 then some n.num.toNat else none
  | _ => none

/-- Deserialize an `i32` field: an integer in `[-2^31, 2^31)`. -/
def Json.asI32 : Json → Option Int
  | .num n =>
    if n.den = 1 ∧ -2147483648 ≤ n.num ∧ n.num < 2147483648 then some n.num else none
  | _ => none

/-- Deserialize an `i64` field: an integer in `[-2^63, 2^63)`. -/
def Json.asI64 : Json → Option Int
  | .num n =>
    if n.den = 1 ∧ -9223372036854775808 ≤ n.num ∧ n.num < 9223372036854775808 then
      some n.num
    else none
  | _ => none

/-- `struct AgentStatus` (messages.rs): all three fields required. -/
structure AgentStatus where
  agent_id : String
  status : RunnerStatus
  metrics : List (String × Json)

/-- Deserialization of `AgentStatus`. -/
def AgentStatus.decode : Json → Option AgentStatus
  | .obj l => do
    let agent_id ← Json.reqField l "agent_id" Json.asString
    let status ← Json.reqField l "status" RunnerStatus.decode
    let metrics ← Json.reqField l "metrics" Json.asObjMap
    pure ⟨agent_id, status, metrics⟩
  | _ => none

/-- `struct AgentSkillReport` (messages.rs): `agent_id`, `skill_id`, `result`
required; `score` is an `Option` field, absent means `None`. -/
structure AgentSkillReport where
  agent_id : String
  skill_id : String
  result : SkillResult
  score : Option Rat

/-- Deserialization of `AgentSkillReport`. -/
def AgentSkillReport.decode : Json → Option AgentSkillReport
  | .obj l => do
    let agent_id ← Json.reqField l "agent_id" Json.asString
    let skill_id ← Json.reqField l "skill_id" Json.asString
    let result ← Json.reqField l "result" SkillResult.decode
    let score ← Json.optField l "score" Json.asNum
    pure ⟨agent_id, skill_id, result, score⟩
  | _ => none

/-- `struct HealthCheck` (messages.rs): `name`, `endpoint`, `healthy`
required; `latency_ms` and `error` are `Option` fields. -/
structure HealthCheck where
  name : String
  endpoint : String
  healthy : Bool
  latency_ms : Option Nat
  error : Option String

/-- Deserialization of `HealthCheck`. -/
def HealthCheck.decode : Json → Option HealthCheck
  | .obj l => do
    let name ← Json.reqField l "name" Json.asString
    let endpoint ← Json.reqField l "endpoint" Json.asString
    let healthy ← Json.reqField l "healthy" Json.asBool
    let latency_ms ← Json.optField l "latency_ms" Json.asU64
    let error ← Json.optField l "error" Json.asString
    pure ⟨name, endpoint, healthy, latency_ms, error⟩
  | _ => none

/-- `struct AgentHealth` (messages.rs): both fields required. -/
structure AgentHealth where
  agent_id : String
  health_checks : List HealthCheck

/-- Deserialization of `AgentHealth`. -/
def AgentHealth.decode : Json → Option AgentHealth
  | .obj l => do
    let agent_id ← Json.reqField l "agent_id" Json.asString
    let health_checks ← Json.reqField l "health_checks" (Json.asArr HealthCheck.decode)
    pure ⟨agent_id, health_checks⟩
  | _ => none

/-- `struct KingCommand` (messages.rs): all three fields required. -/
structure KingCommand where
  command : String
  target_agent : String
  params : List (String × Json)

/-- Deserialization of `KingCommand`. -/
def KingCommand.decode : Json → Option KingCommand
  | .obj l => do
    let command ← Json.reqField l "command" Json.asString
    let target_agent ← Json.reqField l "target_agent" Json.asString
    let params ← Json.reqField l "params" Json.asObjMap
    pure ⟨command, target_agent, params⟩
  | _ => none

/-- `struct KingConfigUpdate` (messages.rs): both fields required. -/
structure KingConfigUpdate where
  config_type : String
  new_config_hash : String

/-- Deserialization of `KingConfigUpdate`. -/
def KingConfigUpdate.decode : Json → Option KingConfigUpdate
  | .obj l => do
    let config_type ← Json.reqField l "config_type" Json.asString
    let new_config_hash ← Json.reqField l "new_config_hash" Json.asString
    pure ⟨config_type, new_config_hash⟩
  | _ => none

/-- `struct PipelineNext` (messages.rs): all three fields required. -/
structure PipelineNext where
  stage : PipelineStage
  artifact_id : String
  metadata : List (String × Json)

/-- Deserialization of `PipelineNext`. -/
def PipelineNext.decode : Json → Option PipelineNext
  | .obj l => do
    let stage ← Json.reqField l "stage" PipelineStage.decode
    let artifact_id ← Json.reqField l "artifact_id" Json.asString
    let metadata ← Json.reqField l "metadata" Json.asObjMap
    pure ⟨stage, artifact_id, metadata⟩
  | _ => none

/-- `struct PipelineStageResult` (messages.rs): six required fields;
`error` is an `Option` field. -/
structure PipelineStageResult where
  run_id : String
  stage : PipelineStage
  agent_id : String
  status : PipelineRunStatus
  artifact_id : String
  output : Json
  error : Option String

/-- Deserialization of `PipelineStageResult`. -/
def PipelineStageResult.decode : Json → Option PipelineStageResult
  | .obj l => do
    let run_id ← Json.reqField l "run_id" Json.asString
    let stage ← Json.reqField l "stage" PipelineStage.decode
    let agent_id ← Json.reqField l "agent_id" Json.asString
    let status ← Json.reqField l "status" PipelineRunStatus.decode
    let artifact_id ← Json.reqField l "artifact_id" Json.asString
    let output ← Json.reqField l "output" Json.asValue
    let error ← Json.optField l "error" Json.asString
    pure ⟨run_id, stage, agent_id, status, artifact_id, output, error⟩
  | _ => none

/-- `struct TaskGet` (messages.rs): one required field. -/
structure TaskGet where
  task_id : String

/-- Deserialization of `TaskGet`. -/
def TaskGet.decode : Json → Option TaskGet
  | .obj l => do
    let task_id ← Json.reqField l "task_id" Json.asString
    pure ⟨task_id⟩
  | _ => none

/-- `struct TaskDelete` (messages.rs): one required field. -/
structure TaskDelete where
  task_id : String

/-- Deserialization of `TaskDelete`. -/
def TaskDelete.decode : Json → Option TaskDelete
  | .obj l => do
    let task_id ← Json.reqField l "task_id" Json.asString
    pure ⟨task_id⟩
  | _ => none

/-- `struct TaskRecord` (messages.rs): everything required except
`parent_id`, which defaults to the empty string. -/
structure TaskRecord where
  id : String
  task_type : String
  status : String
  agent_id : String
  payload : Json
  parent_id : String
  created_at : String
  updated_at : String

/-- Deserialization of `TaskRecord`. -/
def TaskRecord.decode : Json → Option TaskRecord
  | .obj l => do
    let id ← Json.reqField l "id" Json.asString
    let task_type ← Json.reqField l "task_type" Json.asString
    let status ← Json.reqField l "status" Json.asString
    let agent_id ← Json.reqField l "agent_id" Json.asString
    let payload ← Json.reqField l "payload" Json.asValue
    let parent_id ← Json.defField l "parent_id" Json.asString ""
    let created_at ← Json.reqField l "created_at" Json.asString
    let updated_at ← Json.reqField l "updated_at" Json.asString
    pure ⟨id, task_type, status, agent_id, payload, parent_id, created_at, updated_at⟩
  | _ => none

/-- `struct MemoryTierRecord` (messages.rs): all six fields required. -/
structure MemoryTierRecord where
  id : String
  memory_id : String
  tier : String
  content : String
  created_at : String
  updated_at : String

/-- Deserialization of `MemoryTierRecord`. -/
def MemoryTierRecord.decode : Json → Option MemoryTierRecord
  | .obj l => do
    let id ← Json.reqField l "id" Json.asString
    let memory_id ← Json.reqField l "memory_id" Json.asString
    let tier ← Json.reqField l "tier" Json.asString
    let content ← Json.reqField l "content" Json.asString
    let created_at ← Json.reqField l "created_at" Json.asString
    let updated_at ← Json.reqField l "updated_at" Json.asString
    pure ⟨id, memory_id, tier, content, created_at, updated_at⟩
  | _ => none

/-- `struct MemoryRecord` (messages.rs): `id`, `scope`, `category`, `key`,
`created_at`, `updated_at` required; `tiers`, `metadata`, `tags`, `agent_id`,
`run_id`, `skill_id`, `relevance_score`, `access_count` defaulted. -/
structure MemoryRecord where
  id : String
  scope : String
  category : String
  key : String
  tiers : List MemoryTierRecord
  metadata : Json
  tags : List String
  agent_id : String
  run_id : String
  skill_id : String
  relevance_score : Rat
  access_count : Int
  created_at : String
  updated_at : String

/-- Deserialization of `MemoryRecord`. -/
def MemoryRecord.decode : Json → Option MemoryRecord
  | .obj l => do
    let id ← Json.reqField l "id" Json.asString
    let scope ← Json.reqField l "scope" Json.asString
    let category ← Json.reqField l "category" Json.asString
    let key ← Json.reqField l "key" Json.asString
    let tiers ← Json.defField l "tiers" (Json.asArr MemoryTierRecord.decode) []
    let metadata ← Json.defField l "metadata" Json.asValue default_empty_object
    let tags ← Json.defField l "tags" (Json.asArr Json.asString) []
    let agent_id ← Json.defField l "agent_id" Json.asString ""
    let run_id ← Json.defField l "run_id" Json.asString ""
    let skill_id ← Json.defField l "skill_id" Json.asString ""
    let relevance_score ← Json.defField l "relevance_score" Json.asNum 0
    let access_count ← Json.defField l "access_count" Json.asI64 0
    let created_at ← Json.reqField l "created_at" Json.asString
    let updated_at ← Json.reqField l "updated_at" Json.asString
    pure ⟨id, scope, category, key, tiers, metadata, tags, agent_id, run_id, skill_id,
          relevance_score, access_count, created_at, updated_at⟩
  | _ => none

/-- `struct MemoryResult` (messages.rs): both fields required. -/
structure MemoryResult where
  memories : List MemoryRecord
  count : Nat

/-- Deserialization of `MemoryResult`. -/
def MemoryResult.decode : Json → Option MemoryResult
  | .obj l => do
    let memories ← Json.reqField l "memories" (Json.asArr MemoryRecord.decode)
    let count ← Json.reqField l "count" Json.asU32
    pure ⟨memories, count⟩
  | _ => none

/-- `struct MemoryChanged` (messages.rs): `action` required; `memory` and
`memory_id` defaulted options. -/
structure MemoryChanged where
  action : String
  memory : Option MemoryRecord
  memory_id : Option String

/-- Deserialization of `MemoryChanged`. -/
def MemoryChanged.decode : Json → Option MemoryChanged
  | .obj l => do
    let action ← Json.reqField l "action" Json.asString
    let memory ← Json.optField l "memory" MemoryRecord.decode
    let memory_id ← Json.optField l "memory_id" Json.asString
    pure ⟨action, memory, memory_id⟩
  | _ => none

/-- `struct TaskInvite` (messages.rs): `task_id` and `task_type` required;
`payload` has a plain `#[serde(default)]`, whose `Value` default is `null`
(not the empty object). -/
structure TaskInvite where
  task_id : String
  task_type : String
  payload : Json

/-- Deserialization of `TaskInvite`. -/
def TaskInvite.decode : Json → Option TaskInvite
  | .obj l => do
    let task_id ← Json.reqField l "task_id" Json.asString
    let task_type ← Json.reqField l "task_type" Json.asString
    let payload ← Json.defField l "payload" Json.asValue Json.null
    pure ⟨task_id, task_type, payload⟩
  | _ => none

/-- `struct TaskEvaluate` (messages.rs): `task_id` and `task_type` required;
`output_summary` defaults to the empty string, `exit_code` and `latency_ms`
are options, `metadata` defaults to the `Value` default `null`. -/
structure TaskEvaluate where
  task_id : String
  task_type : String
  output_summary : String
  exit_code : Option Int
  latency_ms : Option Nat
  metadata : Json

/-- Deserialization of `TaskEvaluate`. -/
def TaskEvaluate.decode : Json → Option TaskEvaluate
  | .obj l => do
    let task_id ← Json.reqField l "task_id" Json.asString
    let task_type ← Json.reqField l "task_type" Json.asString
    let output_summary ← Json.defField l "output_summary" Json.asString ""
    let exit_code ← Json.optField l "exit_code" Json.asI32
    let latency_ms ← Json.optField l "latency_ms" Json.asU64
    let metadata ← Json.defField l "metadata" Json.asValue Json.null
    pure ⟨task_id, task_type, output_summary, exit_code, latency_ms, metadata⟩
  | _ => none

/-- `struct TaskSummary` (messages.rs): `task_id`, `agent_id`, `summary`
required; `score` optional, `tags` defaults to empty, `evaluation` defaults
to the `Value` default `null`. -/
structure TaskSummary where
  task_id : String
  agent_id : String
  summary : String
  score : Option Rat
  tags : List String
  evaluation : Json

/-- Deserialization of `TaskSummary`. -/
def TaskSummary.decode : Json → Option TaskSummary
  | .obj l => do
    let task_id ← Json.reqField l "task_id" Json.asString
    let agent_id ← Json.reqField l "agent_id" Json.asString
    let summary ← Json.reqField l "summary" Json.asString
    let score ← Json.optField l "score" Json.asNum
    let tags ← Json.defField l "tags" (Json.asArr Json.asString) []
    let evaluation ← Json.defField l "evaluation" Json.asValue Json.null
    pure ⟨task_id, agent_id, summary, score, tags, evaluation⟩
  | _ => none

-- ─── Schema field inventories and forward-compatibility properties ──────────

/-- Drop from a JSON object every field whose name is not among `names`
(the schema's own field names): the fields a schema-unaware reader would
call unknown. -/
def Json.keepKnown (names : List String) (l : List (String × Json)) :
    List (String × Json) :=
  match l with
  | [] => []
  | (k, v) :: rest =>
    if names.contains k then (k, v) :: keepKnown names rest else keepKnown names rest

/-- A deserializer rejects any input object missing one of its required
fields. -/
def RejectsMissingRequired (dec : Json → Option β) (req : List String) : Prop :=
  ∀ (l : List (String × Json)) (n : String), n ∈ req → Json.lookup l n = none →
    dec (Json.obj l) = none

/-- A deserializer is insensitive to unknown extra fields: dropping every
field outside the schema's field names, wherever it occurs in the object,
leaves the result unchanged. -/
def IgnoresUnknownFields (dec : Json → Option β) (names : List String) : Prop :=
  ∀ l : List (String × Json),
    dec (Json.obj (Json.keepKnown names l)) = dec (Json.obj l)

/-- Field names of `AgentRegister`. -/
def AgentRegister.fieldNames : List String := ["agent_id", "role", "capabilities"]

/-- Required (non-defaulted) fields of `AgentRegister`. -/
def AgentRegister.requiredFields : List String := ["agent_id", "role", "capabilities"]

/-- Field names of `AgentStatus`. -/
def AgentStatus.fieldNames : List String := ["agent_id", "status", "metrics"]

/-- Required fields of `AgentStatus`. -/
def AgentStatus.requiredFields : List String := ["agent_id", "status", "metrics"]

/-- Field names of `AgentSkillReport`. -/
def AgentSkillReport.fieldNames : List String := ["agent_id", "skill_id", "result", "score"]

/-- Required fields of `AgentSkillReport` (`score` is an `Option`). -/
def AgentSkillReport.requiredFields : List String := ["agent_id", "skill_id", "result"]

/-- Field names of `AgentHealth`. -/
def AgentHealth.fieldNames : List String := ["agent_id", "health_checks"]

/-- Required fields of `AgentHealth`. -/
def AgentHealth.requiredFields : List String := ["agent_id", "health_checks"]

/-- Field names of `KingCommand`. -/
def KingCommand.fieldNames : List String := ["command", "target_agent", "params"]

/-- Required fields of `KingCommand`. -/
def KingCommand.requiredFields : List String := ["command", "target_agent", "params"]

/-- Field names of `KingConfigUpdate`. -/
def KingConfigUpdate.fieldNames : List String := ["config_type", "new_config_hash"]

/-- Required fields of `KingConfigUpdate`. -/
def KingConfigUpdate.requiredFields : List String := ["config_type", "new_config_hash"]

/-- Field names of `PipelineNext`. -/
def PipelineNext.fieldNames : List String := ["stage", "artifact_id", "metadata"]

/-- Required fields of `PipelineNext`. -/
def PipelineNext.requiredFields : List String := ["stage", "artifact_id", "metadata"]

/-- Field names of `HealthCheck`. -/
def HealthCheck.fieldNames : List String :=
  ["name", "endpoint", "healthy", "latency_ms", "error"]

/-- Required fields of `HealthCheck` (`latency_ms` and `error` are options). -/
def HealthCheck.requiredFields : List String := ["name", "endpoint", "healthy"]

/-- Field names of `PipelineStageResult`. -/
def PipelineStageResult.fieldNames : List String :=
  ["run_id", "stage", "agent_id", "status", "artifact_id", "output", "error"]

/-- Required fields of `PipelineStageResult` (`error` is an `Option`). -/
def PipelineStageResult.requiredFields : List String :=
  ["run_id", "stage", "agent_id", "status", "artifact_id", "output"]

/-- Field names of `TaskCreate`. -/
def TaskCreate.fieldNames : List String := ["task_type", "agent_id", "payload", "parent_id"]

/-- Required fields of `TaskCreate` (the rest are defaulted). -/
def TaskCreate.requiredFields : List String := ["task_type"]

/-- Field names of `TaskUpdate`. -/
def TaskUpdate.fieldNames : List String := ["task_id", "status", "agent_id", "payload"]

/-- Required fields of `TaskUpdate`. -/
def TaskUpdate.requiredFields : List String := ["task_id"]

/-- Field names of `TaskGet`. -/
def TaskGet.fieldNames : List String := ["task_id"]

/-- Required fields of `TaskGet`. -/
def TaskGet.requiredFields : List String := ["task_id"]

/-- Field names of `TaskList`. -/
def TaskList.fieldNames : List String := ["limit", "status", "agent_id", "parent_id"]

/-- Required fields of `TaskList`: none, every field is defaulted. -/
def TaskList.requiredFields : List String := []

/-- Field names of `TaskDelete`. -/
def TaskDelete.fieldNames : List String := ["task_id"]

/-- Required fields of `TaskDelete`. -/
def TaskDelete.requiredFields : List String := ["task_id"]

/-- Field names of `TaskRecord`. -/
def TaskRecord.fieldNames : List String :=
  ["id", "task_type", "status", "agent_id", "payload", "parent_id", "created_at",
   "updated_at"]

/-- Required fields of `TaskRecord` (`parent_id` is defaulted). -/
def TaskRecord.requiredFields : List String :=
  ["id", "task_type", "status", "agent_id", "payload", "created_at", "updated_at"]

/-- Field names of `MemoryTierEntry`. -/
def MemoryTierEntry.fieldNames : List String := ["tier", "content"]

/-- Required fields of `MemoryTierEntry`. -/
def MemoryTierEntry.requiredFields : List String := ["tier", "content"]

/-- Field names of `MemoryStore`. -/
def MemoryStore.fieldNames : List String :=
  ["scope", "category", "key", "metadata", "tags", "agent_id", "run_id", "skill_id",
   "relevance_score", "tiers", "task_id"]

/-- Required fields of `MemoryStore` (the rest are defaulted). -/
def MemoryStore.requiredFields : List String := ["scope", "category"]

/-- Field names of `MemoryQuery`. -/
def MemoryQuery.fieldNames : List String :=
  ["query", "scope", "category", "agent_id", "tier", "task_id", "limit"]

/-- Required fields of `MemoryQuery` (the rest are defaulted). -/
def MemoryQuery.requiredFields : List String := ["query"]

/-- Field names of `MemoryTierRecord`. -/
def MemoryTierRecord.fieldNames : List String :=
  ["id", "memory_id", "tier", "content", "created_at", "updated_at"]

/-- Required fields of `MemoryTierRecord`. -/
def MemoryTierRecord.requiredFields : List String :=
  ["id", "memory_id", "tier", "content", "created_at", "updated_at"]

/-- Field names of `MemoryRecord`. -/
def MemoryRecord.fieldNames : List String :=
  ["id", "scope", "category", "key", "tiers", "metadata", "tags", "agent_id", "run_id",
   "skill_id", "relevance_score", "access_count", "created_at", "updated_at"]

/-- Required fields of `MemoryRecord` (the rest are defaulted). -/
def MemoryRecord.requiredFields : List String :=
  ["id", "scope", "category", "key", "created_at", "updated_at"]

/-- Field names of `MemoryResult`. -/
def MemoryResult.fieldNames : List String := ["memories", "count"]

/-- Required fields of `MemoryResult`. -/
def MemoryResult.requiredFields : List String := ["memories", "count"]

/-- Field names of `MemoryChanged`. -/
def MemoryChanged.fieldNames : List String := ["action", "memory", "memory_id"]

/-- Required fields of `MemoryChanged` (the rest are defaulted options). -/
def MemoryChanged.requiredFields : List String := ["action"]

/-- Field names of `TaskInvite`. -/
def TaskInvite.fieldNames : List String := ["task_id", "task_type", "payload"]

/-- Required fields of `TaskInvite` (`payload` is defaulted). -/
def TaskInvite.requiredFields : List String := ["task_id", "task_type"]

/-- Field names of `TaskOutput`. -/
def TaskOutput.fieldNames : List String :=
  ["task_id", "request_id", "source", "delta", "chunk_index", "is_final"]

/-- Required fields of `TaskOutput` (`is_final` is defaulted). -/
def TaskOutput.requiredFields : List String :=
  ["task_id", "request_id", "source", "delta", "chunk_index"]

/-- Field names of `TaskEvaluate`. -/
def TaskEvaluate.fieldNames : List String :=
  ["task_id", "task_type", "output_summary", "exit_code", "latency_ms", "metadata"]

/-- Required fields of `TaskEvaluate` (the rest are defaulted). -/
def TaskEvaluate.requiredFields : List String := ["task_id", "task_type"]

/-- Field names of `TaskSummary`. -/
def TaskSummary.fieldNames : List String :=
  ["task_id", "agent_id", "summary", "score", "tags", "evaluation"]

/-- Required fields of `TaskSummary` (the rest are defaulted). -/
def TaskSummary.requiredFields : List String := ["task_id", "agent_id", "summary"]

-- ─── Claim theorems ──────────────────────────────────────────────────────────

/-- `none` bound into any continuation is `none`. -/
theorem optionNoneBind (f : α → Option β) : ((none : Option α) >>= f) = none := rfl

/-- Binding into a constantly-`none` continuation is `none`. -/
theorem optionBindNone (x : Option α) : (x >>= fun _ => (none : Option β)) = none := by
  cases x <;> rfl

/-- Looking up one of the known names is unaffected by dropping all unknown
fields. -/
theorem Json.lookup_keepKnown (names : List String) (l : List (String × Json)) (n : String)
    (h : n ∈ names) :
    Json.lookup (Json.keepKnown names l) n = Json.lookup l n := by
  induction l with
  | nil => rfl
  | cons p rest ih =>
    obtain ⟨k, v⟩ := p
    by_cases hc : k ∈ names
    · by_cases hk : k = n
      · subst hk
        simp [Json.keepKnown, hc, Json.lookup]
      · simp [Json.keepKnown, hc, Json.lookup, hk, ih]
    · have hk : k ≠ n := fun e => hc (e ▸ h)
      simp [Json.keepKnown, hc, Json.lookup, hk, ih]


/-- Claim C1, counterexample: the claim asserts every protocol enum variant
serializes to the lowercase underscore-separated token, in particular that
`HttpMethod::Get` encodes to `"get"`.  The code annotates `HttpMethod` with
`rename_all = "UPPERCASE"`, so `Get` encodes to `"GET"`, not `"get"`. -/
theorem C1_counterexample :
    HttpMethod.encode HttpMethod.get = Json.str "GET" ∧
    HttpMethod.encode HttpMethod.get ≠ Json.str "get" := by
  refine ⟨rfl, fun h => ?_⟩
  have h0 : Json.str "GET" = Json.str "get" := h
  have h2 : "GET" = "get" := by injection h0
  exact absurd h2 (by decide)

/-- Claim C1, amended: every `snake_case`-renamed protocol enum serializes
each variant to the lowercase, underscore-separated token derived from the
variant name (payload-carrying variants as a one-entry map keyed by that
token); `HttpMethod`, however, is `UPPERCASE`-renamed and serializes its
variants to the uppercased variant names (`Get` to `"GET"`, ...). -/
theorem C1_enum_wire_tokens :
    TaskStatus.variants.map TaskStatus.encode =
      [.str "pending", .str "in_progress", .str "completed", .str "failed",
       .str "cancelled"] ∧
    PipelineStage.variants.map PipelineStage.encode =
      [.str "learning", .str "building", .str "pre_load", .str "evaluation",
       .str "skill_manage"] ∧
    PipelineRunStatus.variants.map PipelineRunStatus.encode =
      [.str "running", .str "completed", .str "failed", .str "timed_out"] ∧
    RunnerStatus.variants.map RunnerStatus.encode =
      [.str "starting", .str "ready", .str "busy", .str "error", .str "shutting"] ∧
    MemoryScope.variants.map MemoryScope.encode =
      [.str "system", .str "agent", .str "pipeline", .str "skill"] ∧
    MemoryCategory.variants.map MemoryCategory.encode =
      [.str "case", .str "pattern", .str "fact", .str "preference",
       .str "resource", .str "event"] ∧
    ProviderType.variants.map ProviderType.encode =
      [.str "open_ai_compatible", .str "anthropic", .str "cursor",
       .str "claude_code", .str "codex_cli"] ∧
    AgentRole.unitVariants.map AgentRole.encode =
      [.str "skill_manage", .str "learning", .str "pre_load", .str "building",
       .str "evaluation"] ∧
    (∀ s : String, AgentRole.encode (.user s) = Json.obj [("user", Json.str s)]) ∧
    SkillResult.encode .success = Json.str "success" ∧
    (∀ s : String, SkillResult.encode (.failure s) =
      Json.obj [("failure", Json.str s)]) ∧
    (∀ s : String, SkillResult.encode (.partialResult s) =
      Json.obj [("partial", Json.str s)]) ∧
    HttpMethod.variants.map HttpMethod.encode =
      [.str "GET", .str "POST", .str "PUT", .str "DELETE", .str "PATCH"] :=
  ⟨rfl, rfl, rfl, rfl, rfl, rfl, rfl, rfl, fun _ => rfl, rfl, fun _ => rfl,
   fun _ => rfl, rfl⟩

/-- Claim C2: for every variant of every protocol enum, decoding the encoded
variant yields the original value; in particular `PipelineRunStatus.timedOut`
encodes to `"timed_out"` and that string decodes back to `timedOut`. -/
theorem C2_enum_roundtrip :
    (∀ x : TaskStatus, TaskStatus.decode (TaskStatus.encode x) = some x) ∧
    (∀ x : PipelineStage, PipelineStage.decode (PipelineStage.encode x) = some x) ∧
    (∀ x : PipelineRunStatus,
      PipelineRunStatus.decode (PipelineRunStatus.encode x) = some x) ∧
    (∀ x : RunnerStatus, RunnerStatus.decode (RunnerStatus.encode x) = some x) ∧
    (∀ x : MemoryScope, MemoryScope.decode (MemoryScope.encode x) = some x) ∧
    (∀ x : MemoryCategory, MemoryCategory.decode (MemoryCategory.encode x) = some x) ∧
    (∀ x : AgentRole, AgentRole.decode (AgentRole.encode x) = some x) ∧
    (∀ x : SkillResult, SkillResult.decode (SkillResult.encode x) = some x) ∧
    PipelineRunStatus.encode .timedOut = Json.str "timed_out" ∧
    PipelineRunStatus.decode (Json.str "timed_out") = some .timedOut := by
  refine ⟨?_, ?_, ?_, ?_, ?_, ?_, ?_, ?_, rfl, rfl⟩ <;> intro x <;> cases x <;> rfl

set_option maxHeartbeats 3200000 in
/-- Claim C3: for every message schema of the protocol (all twenty-six
structures of messages.rs), deserialization fails when a required
(non-defaulted) field is absent from the input object (for any input and any
required field), succeeds when a defaulted field is absent, substituting its
default (shown per schema on inputs carrying exactly the required fields),
and is insensitive to unknown extra fields anywhere in the input (dropping
every field outside the schema's field names never changes the result) —
e.g. an `AgentRegister` object missing `agent_id` is rejected and a
`TaskOutput` object with an extra unknown field but all required fields
present is accepted. -/
theorem C3_required_default_unknown_fields :
    -- AgentRegister
    RejectsMissingRequired AgentRegister.decode AgentRegister.requiredFields ∧
    IgnoresUnknownFields AgentRegister.decode AgentRegister.fieldNames ∧
    -- AgentStatus
    RejectsMissingRequired AgentStatus.decode AgentStatus.requiredFields ∧
    IgnoresUnknownFields AgentStatus.decode AgentStatus.fieldNames ∧
    -- AgentSkillReport
    RejectsMissingRequired AgentSkillReport.decode AgentSkillReport.requiredFields ∧
    IgnoresUnknownFields AgentSkillReport.decode AgentSkillReport.fieldNames ∧
    (∀ (aid sid : String) (res : SkillResult),
          AgentSkillReport.decode (Json.obj
            [("agent_id", Json.str aid), ("skill_id", Json.str sid),
             ("result", SkillResult.encode res)]) = some ⟨aid, sid, res, none⟩) ∧
    -- AgentHealth
    RejectsMissingRequired AgentHealth.decode AgentHealth.requiredFields ∧
    IgnoresUnknownFields AgentHealth.decode AgentHealth.fieldNames ∧
    -- KingCommand
    RejectsMissingRequired KingCommand.decode KingCommand.requiredFields ∧
    IgnoresUnknownFields KingCommand.decode KingCommand.fieldNames ∧
    -- KingConfigUpdate
    RejectsMissingRequired KingConfigUpdate.decode KingConfigUpdate.requiredFields ∧
    IgnoresUnknownFields KingConfigUpdate.decode KingConfigUpdate.fieldNames ∧
    -- PipelineNext
    RejectsMissingRequired PipelineNext.decode PipelineNext.requiredFields ∧
    IgnoresUnknownFields PipelineNext.decode PipelineNext.fieldNames ∧
    -- HealthCheck
    RejectsMissingRequired HealthCheck.decode HealthCheck.requiredFields ∧
    IgnoresUnknownFields HealthCheck.decode HealthCheck.fieldNames ∧
    (∀ (nm ep : String) (hy : Bool),
          HealthCheck.decode (Json.obj
            [("name", Json.str nm), ("endpoint", Json.str ep),
             ("healthy", Json.bool hy)]) = some ⟨nm, ep, hy, none, none⟩) ∧
    -- PipelineStageResult
    RejectsMissingRequired PipelineStageResult.decode PipelineStageResult.requiredFields ∧
    IgnoresUnknownFields PipelineStageResult.decode PipelineStageResult.fieldNames ∧
    (∀ (rid aid art : String) (out : Json) (stage : PipelineStage)
            (status : PipelineRunStatus),
          PipelineStageResult.decode (Json.obj
            [("run_id", Json.str rid), ("stage", PipelineStage.encode stage),
             ("agent_id", Json.str aid), ("status", PipelineRunStatus.encode status),
             ("artifact_id", Json.str art), ("output", out)]) =
            some ⟨rid, stage, aid, status, art, out, none⟩) ∧
    -- TaskCreate
    RejectsMissingRequired TaskCreate.decode TaskCreate.requiredFields ∧
    IgnoresUnknownFields TaskCreate.decode TaskCreate.fieldNames ∧
    (∀ tt : String, TaskCreate.decode (Json.obj [("task_type", Json.str tt)]) =
          some ⟨tt, none, default_empty_object, none⟩) ∧
    -- TaskUpdate
    RejectsMissingRequired TaskUpdate.decode TaskUpdate.requiredFields ∧
    IgnoresUnknownFields TaskUpdate.decode TaskUpdate.fieldNames ∧
    (∀ tid : String, TaskUpdate.decode (Json.obj [("task_id", Json.str tid)]) =
          some ⟨tid, none, none, none⟩) ∧
    -- TaskGet
    RejectsMissingRequired TaskGet.decode TaskGet.requiredFields ∧
    IgnoresUnknownFields TaskGet.decode TaskGet.fieldNames ∧
    -- TaskList
    RejectsMissingRequired TaskList.decode TaskList.requiredFields ∧
    IgnoresUnknownFields TaskList.decode TaskList.fieldNames ∧
    TaskList.decode (Json.obj []) = some ⟨50, none, none, none⟩ ∧
    -- TaskDelete
    RejectsMissingRequired TaskDelete.decode TaskDelete.requiredFields ∧
    IgnoresUnknownFields TaskDelete.decode TaskDelete.fieldNames ∧
    -- TaskRecord
    RejectsMissingRequired TaskRecord.decode TaskRecord.requiredFields ∧
    IgnoresUnknownFields TaskRecord.decode TaskRecord.fieldNames ∧
    (∀ (i tt st aid ca ua : String) (p : Json),
          TaskRecord.decode (Json.obj
            [("id", Json.str i), ("task_type", Json.str tt), ("status", Json.str st),
             ("agent_id", Json.str aid), ("payload", p), ("created_at", Json.str ca),
             ("updated_at", Json.str ua)]) = some ⟨i, tt, st, aid, p, "", ca, ua⟩) ∧
    -- MemoryTierEntry
    RejectsMissingRequired MemoryTierEntry.decode MemoryTierEntry.requiredFields ∧
    IgnoresUnknownFields MemoryTierEntry.decode MemoryTierEntry.fieldNames ∧
    -- MemoryStore
    RejectsMissingRequired MemoryStore.decode MemoryStore.requiredFields ∧
    IgnoresUnknownFields MemoryStore.decode MemoryStore.fieldNames ∧
    (∀ (sc : MemoryScope) (cat : MemoryCategory),
          MemoryStore.decode (Json.obj
            [("scope", MemoryScope.encode sc), ("category", MemoryCategory.encode cat)]) =
            some ⟨sc, cat, "", default_empty_object, [], "", "", "", 0, [], none⟩) ∧
    -- MemoryQuery
    RejectsMissingRequired MemoryQuery.decode MemoryQuery.requiredFields ∧
    IgnoresUnknownFields MemoryQuery.decode MemoryQuery.fieldNames ∧
    (∀ q : String, MemoryQuery.decode (Json.obj [("query", Json.str q)]) =
          some ⟨q, none, none, none, none, none, 20⟩) ∧
    -- MemoryTierRecord
    RejectsMissingRequired MemoryTierRecord.decode MemoryTierRecord.requiredFields ∧
    IgnoresUnknownFields MemoryTierRecord.decode MemoryTierRecord.fieldNames ∧
    -- MemoryRecord
    RejectsMissingRequired MemoryRecord.decode MemoryRecord.requiredFields ∧
    IgnoresUnknownFields MemoryRecord.decode MemoryRecord.fieldNames ∧
    (∀ i sc cat key ca ua : String,
          MemoryRecord.decode (Json.obj
            [("id", Json.str i), ("scope", Json.str sc), ("category", Json.str cat),
             ("key", Json.str key), ("created_at", Json.str ca),
             ("updated_at", Json.str ua)]) =
            some ⟨i, sc, cat, key, [], default_empty_object, [], "", "", "", 0, 0, ca, ua⟩) ∧
    -- MemoryResult
    RejectsMissingRequired MemoryResult.decode MemoryResult.requiredFields ∧
    IgnoresUnknownFields MemoryResult.decode MemoryResult.fieldNames ∧
    -- MemoryChanged
    RejectsMissingRequired MemoryChanged.decode MemoryChanged.requiredFields ∧
    IgnoresUnknownFields MemoryChanged.decode MemoryChanged.fieldNames ∧
    (∀ action : String, MemoryChanged.decode (Json.obj [("action", Json.str action)]) =
          some ⟨action, none, none⟩) ∧
    -- TaskInvite
    RejectsMissingRequired TaskInvite.decode TaskInvite.requiredFields ∧
    IgnoresUnknownFields TaskInvite.decode TaskInvite.fieldNames ∧
    (∀ tid tt : String,
          TaskInvite.decode (Json.obj
            [("task_id", Json.str tid), ("task_type", Json.str tt)]) =
            some ⟨tid, tt, Json.null⟩) ∧
    -- TaskOutput
    RejectsMissingRequired TaskOutput.decode TaskOutput.requiredFields ∧
    IgnoresUnknownFields TaskOutput.decode TaskOutput.fieldNames ∧
    (∀ t r src d : String,
          TaskOutput.decode (Json.obj
            [("task_id", Json.str t), ("request_id", Json.str r),
             ("source", Json.str src), ("delta", Json.str d),
             ("chunk_index", Json.num 0)]) = some ⟨t, r, src, d, 0, false⟩) ∧
    -- TaskEvaluate
    RejectsMissingRequired TaskEvaluate.decode TaskEvaluate.requiredFields ∧
    IgnoresUnknownFields TaskEvaluate.decode TaskEvaluate.fieldNames ∧
    (∀ tid tt : String,
          TaskEvaluate.decode (Json.obj
            [("task_id", Json.str tid), ("task_type", Json.str tt)]) =
            some ⟨tid, tt, "", none, none, Json.null⟩) ∧
    -- TaskSummary
    RejectsMissingRequired TaskSummary.decode TaskSummary.requiredFields ∧
    IgnoresUnknownFields TaskSummary.decode TaskSummary.fieldNames ∧
    (∀ (tid aid sm : String),
          TaskSummary.decode (Json.obj
            [("task_id", Json.str tid), ("agent_id", Json.str aid),
             ("summary", Json.str sm)]) = some ⟨tid, aid, sm, none, [], Json.null⟩) :=
  ⟨
   (by
    intro l n hn hl
    simp only [AgentRegister.requiredFields] at hn
    fin_cases hn
    all_goals
      simp only [AgentRegister.decode, Json.reqField, hl, optionNoneBind, optionBindNone,
        Option.none_bind]),
   (by
    intro l
    have e1 := Json.lookup_keepKnown AgentRegister.fieldNames l "agent_id" (by decide)
    have e2 := Json.lookup_keepKnown AgentRegister.fieldNames l "role" (by decide)
    have e3 := Json.lookup_keepKnown AgentRegister.fieldNames l "capabilities" (by decide)
    simp only [AgentRegister.decode, Json.reqField, Json.defField, Json.optField, e1, e2, e3]),
   (by
    intro l n hn hl
    simp only [AgentStatus.requiredFields] at hn
    fin_cases hn
    all_goals
      simp only [AgentStatus.decode, Json.reqField, hl, optionNoneBind, optionBindNone,
        Option.none_bind]),
   (by
    intro l
    have e1 := Json.lookup_keepKnown AgentStatus.fieldNames l "agent_id" (by decide)
    have e2 := Json.lookup_keepKnown AgentStatus.fieldNames l "status" (by decide)
    have e3 := Json.lookup_keepKnown AgentStatus.fieldNames l "metrics" (by decide)
    simp only [AgentStatus.decode, Json.reqField, Json.defField, Json.optField, e1, e2, e3]),
   (by
    intro l n hn hl
    simp only [AgentSkillReport.requiredFields] at hn
    fin_cases hn
    all_goals
      simp only [AgentSkillReport.decode, Json.reqField, hl, optionNoneBind, optionBindNone,
        Option.none_bind]),
   (by
    intro l
    have e1 := Json.lookup_keepKnown AgentSkillReport.fieldNames l "agent_id" (by decide)
    have e2 := Json.lookup_keepKnown AgentSkillReport.fieldNames l "skill_id" (by decide)
    have e3 := Json.lookup_keepKnown AgentSkillReport.fieldNames l "result" (by decide)
    have e4 := Json.lookup_keepKnown AgentSkillReport.fieldNames l "score" (by decide)
    simp only [AgentSkillReport.decode, Json.reqField, Json.defField, Json.optField, e1, e2, e3, e4]),
   (fun aid sid res => by cases res <;> rfl),
   (by
    intro l n hn hl
    simp only [AgentHealth.requiredFields] at hn
    fin_cases hn
    all_goals
      simp only [AgentHealth.decode, Json.reqField, hl, optionNoneBind, optionBindNone,
        Option.none_bind]),
   (by
    intro l
    have e1 := Json.lookup_keepKnown AgentHealth.fieldNames l "agent_id" (by decide)
    have e2 := Json.lookup_keepKnown AgentHealth.fieldNames l "health_checks" (by decide)
    simp only [AgentHealth.decode, Json.reqField, Json.defField, Json.optField, e1, e2]),
   (by
    intro l n hn hl
    simp only [KingCommand.requiredFields] at hn
    fin_cases hn
    all_goals
      simp only [KingCommand.decode, Json.reqField, hl, optionNoneBind, optionBindNone,
        Option.none_bind]),
   (by
    intro l
    have e1 := Json.lookup_keepKnown KingCommand.fieldNames l "command" (by decide)
    have e2 := Json.lookup_keepKnown KingCommand.fieldNames l "target_agent" (by decide)
    have e3 := Json.lookup_keepKnown KingCommand.fieldNames l "params" (by decide)
    simp only [KingCommand.decode, Json.reqField, Json.defField, Json.optField, e1, e2, e3]),
   (by
    intro l n hn hl
    simp only [KingConfigUpdate.requiredFields] at hn
    fin_cases hn
    all_goals
      simp only [KingConfigUpdate.decode, Json.reqField, hl, optionNoneBind, optionBindNone,
        Option.none_bind]),
   (by
    intro l
    have e1 := Json.lookup_keepKnown KingConfigUpdate.fieldNames l "config_type" (by decide)
    have e2 := Json.lookup_keepKnown KingConfigUpdate.fieldNames l "new_config_hash" (by decide)
    simp only [KingConfigUpdate.decode, Json.reqField, Json.defField, Json.optField, e1, e2]),
   (by
    intro l n hn hl
    simp only [PipelineNext.requiredFields] at hn
    fin_cases hn
    all_goals
      simp only [PipelineNext.decode, Json.reqField, hl, optionNoneBind, optionBindNone,
        Option.none_bind]),
   (by
    intro l
    have e1 := Json.lookup_keepKnown PipelineNext.fieldNames l "stage" (by decide)
    have e2 := Json.lookup_keepKnown PipelineNext.fieldNames l "artifact_id" (by decide)
    have e3 := Json.lookup_keepKnown PipelineNext.fieldNames l "metadata" (by decide)
    simp only [PipelineNext.decode, Json.reqField, Json.defField, Json.optField, e1, e2, e3]),
   (by
    intro l n hn hl
    simp only [HealthCheck.requiredFields] at hn
    fin_cases hn
    all_goals
      simp only [HealthCheck.decode, Json.reqField, hl, optionNoneBind, optionBindNone,
        Option.none_bind]),
   (by
    intro l
    have e1 := Json.lookup_keepKnown HealthCheck.fieldNames l "name" (by decide)
    have e2 := Json.lookup_keepKnown HealthCheck.fieldNames l "endpoint" (by decide)
    have e3 := Json.lookup_keepKnown HealthCheck.fieldNames l "healthy" (by decide)
    have e4 := Json.lookup_keepKnown HealthCheck.fieldNames l "latency_ms" (by decide)
    have e5 := Json.lookup_keepKnown HealthCheck.fieldNames l "error" (by decide)
    simp only [HealthCheck.decode, Json.reqField, Json.defField, Json.optField, e1, e2, e3, e4, e5]),
   (fun nm ep hy => rfl),
   (by
    intro l n hn hl
    simp only [PipelineStageResult.requiredFields] at hn
    fin_cases hn
    all_goals
      simp only [PipelineStageResult.decode, Json.reqField, hl, optionNoneBind, optionBindNone,
        Option.none_bind]),
   (by
    intro l
    have e1 := Json.lookup_keepKnown PipelineStageResult.fieldNames l "run_id" (by decide)
    have e2 := Json.lookup_keepKnown PipelineStageResult.fieldNames l "stage" (by decide)
    have e3 := Json.lookup_keepKnown PipelineStageResult.fieldNames l "agent_id" (by decide)
    have e4 := Json.lookup_keepKnown PipelineStageResult.fieldNames l "status" (by decide)
    have e5 := Json.lookup_keepKnown PipelineStageResult.fieldNames l "artifact_id" (by decide)
    have e6 := Json.lookup_keepKnown PipelineStageResult.fieldNames l "output" (by decide)
    have e7 := Json.lookup_keepKnown PipelineStageResult.fieldNames l "error" (by decide)
    simp only [PipelineStageResult.decode, Json.reqField, Json.defField, Json.optField, e1, e2, e3, e4, e5, e6, e7]),
   (fun rid aid art out stage status => by cases stage <;> cases status <;> rfl),
   (by
    intro l n hn hl
    simp only [TaskCreate.requiredFields] at hn
    fin_cases hn
    all_goals
      simp only [TaskCreate.decode, Json.reqField, hl, optionNoneBind, optionBindNone,
        Option.none_bind]),
   (by
    intro l
    have e1 := Json.lookup_keepKnown TaskCreate.fieldNames l "task_type" (by decide)
    have e2 := Json.lookup_keepKnown TaskCreate.fieldNames l "agent_id" (by decide)
    have e3 := Json.lookup_keepKnown TaskCreate.fieldNames l "payload" (by decide)
    have e4 := Json.lookup_keepKnown TaskCreate.fieldNames l "parent_id" (by decide)
    simp only [TaskCreate.decode, Json.reqField, Json.defField, Json.optField, e1, e2, e3, e4]),
   (fun tt => rfl),
   (by
    intro l n hn hl
    simp only [TaskUpdate.requiredFields] at hn
    fin_cases hn
    all_goals
      simp only [TaskUpdate.decode, Json.reqField, hl, optionNoneBind, optionBindNone,
        Option.none_bind]),
   (by
    intro l
    have e1 := Json.lookup_keepKnown TaskUpdate.fieldNames l "task_id" (by decide)
    have e2 := Json.lookup_keepKnown TaskUpdate.fieldNames l "status" (by decide)
    have e3 := Json.lookup_keepKnown TaskUpdate.fieldNames l "agent_id" (by decide)
    have e4 := Json.lookup_keepKnown TaskUpdate.fieldNames l "payload" (by decide)
    simp only [TaskUpdate.decode, Json.reqField, Json.defField, Json.optField, e1, e2, e3, e4]),
   (fun tid => rfl),
   (by
    intro l n hn hl
    simp only [TaskGet.requiredFields] at hn
    fin_cases hn
    all_goals
      simp only [TaskGet.decode, Json.reqField, hl, optionNoneBind, optionBindNone,
        Option.none_bind]),
   (by
    intro l
    have e1 := Json.lookup_keepKnown TaskGet.fieldNames l "task_id" (by decide)
    simp only [TaskGet.decode, Json.reqField, Json.defField, Json.optField, e1]),
   (by
    intro l n hn hl
    simp only [TaskList.requiredFields] at hn
    exact absurd hn (List.not_mem_nil n)),
   (by
    intro l
    have e1 := Json.lookup_keepKnown TaskList.fieldNames l "limit" (by decide)
    have e2 := Json.lookup_keepKnown TaskList.fieldNames l "status" (by decide)
    have e3 := Json.lookup_keepKnown TaskList.fieldNames l "agent_id" (by decide)
    have e4 := Json.lookup_keepKnown TaskList.fieldNames l "parent_id" (by decide)
    simp only [TaskList.decode, Json.reqField, Json.defField, Json.optField, e1, e2, e3, e4]),
   rfl,
   (by
    intro l n hn hl
    simp only [TaskDelete.requiredFields] at hn
    fin_cases hn
    all_goals
      simp only [TaskDelete.decode, Json.reqField, hl, optionNoneBind, optionBindNone,
        Option.none_bind]),
   (by
    intro l
    have e1 := Json.lookup_keepKnown TaskDelete.fieldNames l "task_id" (by decide)
    simp only [TaskDelete.decode, Json.reqField, Json.defField, Json.optField, e1]),
   (by
    intro l n hn hl
    simp only [TaskRecord.requiredFields] at hn
    fin_cases hn
    all_goals
      simp only [TaskRecord.decode, Json.reqField, hl, optionNoneBind, optionBindNone,
        Option.none_bind]),
   (by
    intro l
    have e1 := Json.lookup_keepKnown TaskRecord.fieldNames l "id" (by decide)
    have e2 := Json.lookup_keepKnown TaskRecord.fieldNames l "task_type" (by decide)
    have e3 := Json.lookup_keepKnown TaskRecord.fieldNames l "status" (by decide)
    have e4 := Json.lookup_keepKnown TaskRecord.fieldNames l "agent_id" (by decide)
    have e5 := Json.lookup_keepKnown TaskRecord.fieldNames l "payload" (by decide)
    have e6 := Json.lookup_keepKnown TaskRecord.fieldNames l "parent_id" (by decide)
    have e7 := Json.lookup_keepKnown TaskRecord.fieldNames l "created_at" (by decide)
    have e8 := Json.lookup_keepKnown TaskRecord.fieldNames l "updated_at" (by decide)
    simp only [TaskRecord.decode, Json.reqField, Json.defField, Json.optField, e1, e2, e3, e4, e5, e6, e7, e8]),
   (fun i tt st aid ca ua p => rfl),
   (by
    intro l n hn hl
    simp only [MemoryTierEntry.requiredFields] at hn
    fin_cases hn
    all_goals
      simp only [MemoryTierEntry.decode, Json.reqField, hl, optionNoneBind, optionBindNone,
        Option.none_bind]),
   (by
    intro l
    have e1 := Json.lookup_keepKnown MemoryTierEntry.fieldNames l "tier" (by decide)
    have e2 := Json.lookup_keepKnown MemoryTierEntry.fieldNames l "content" (by decide)
    simp only [MemoryTierEntry.decode, Json.reqField, Json.defField, Json.optField, e1, e2]),
   (by
    intro l n hn hl
    simp only [MemoryStore.requiredFields] at hn
    fin_cases hn
    all_goals
      simp only [MemoryStore.decode, Json.reqField, hl, optionNoneBind, optionBindNone,
        Option.none_bind]),
   (by
    intro l
    have e1 := Json.lookup_keepKnown MemoryStore.fieldNames l "scope" (by decide)
    have e2 := Json.lookup_keepKnown MemoryStore.fieldNames l "category" (by decide)
    have e3 := Json.lookup_keepKnown MemoryStore.fieldNames l "key" (by decide)
    have e4 := Json.lookup_keepKnown MemoryStore.fieldNames l "metadata" (by decide)
    have e5 := Json.lookup_keepKnown MemoryStore.fieldNames l "tags" (by decide)
    have e6 := Json.lookup_keepKnown MemoryStore.fieldNames l "agent_id" (by decide)
    have e7 := Json.lookup_keepKnown MemoryStore.fieldNames l "run_id" (by decide)
    have e8 := Json.lookup_keepKnown MemoryStore.fieldNames l "skill_id" (by decide)
    have e9 := Json.lookup_keepKnown MemoryStore.fieldNames l "relevance_score" (by decide)
    have e10 := Json.lookup_keepKnown MemoryStore.fieldNames l "tiers" (by decide)
    have e11 := Json.lookup_keepKnown MemoryStore.fieldNames l "task_id" (by decide)
    simp only [MemoryStore.decode, Json.reqField, Json.defField, Json.optField, e1, e2, e3, e4, e5, e6, e7, e8, e9, e10, e11]),
   (fun sc cat => by cases sc <;> cases cat <;> rfl),
   (by
    intro l n hn hl
    simp only [MemoryQuery.requiredFields] at hn
    fin_cases hn
    all_goals
      simp only [MemoryQuery.decode, Json.reqField, hl, optionNoneBind, optionBindNone,
        Option.none_bind]),
   (by
    intro l
    have e1 := Json.lookup_keepKnown MemoryQuery.fieldNames l "query" (by decide)
    have e2 := Json.lookup_keepKnown MemoryQuery.fieldNames l "scope" (by decide)
    have e3 := Json.lookup_keepKnown MemoryQuery.fieldNames l "category" (by decide)
    have e4 := Json.lookup_keepKnown MemoryQuery.fieldNames l "agent_id" (by decide)
    have e5 := Json.lookup_keepKnown MemoryQuery.fieldNames l "tier" (by decide)
    have e6 := Json.lookup_keepKnown MemoryQuery.fieldNames l "task_id" (by decide)
    have e7 := Json.lookup_keepKnown MemoryQuery.fieldNames l "limit" (by decide)
    simp only [MemoryQuery.decode, Json.reqField, Json.defField, Json.optField, e1, e2, e3, e4, e5, e6, e7]),
   (fun q => rfl),
   (by
    intro l n hn hl
    simp only [MemoryTierRecord.requiredFields] at hn
    fin_cases hn
    all_goals
      simp only [MemoryTierRecord.decode, Json.reqField, hl, optionNoneBind, optionBindNone,
        Option.none_bind]),
   (by
    intro l
    have e1 := Json.lookup_keepKnown MemoryTierRecord.fieldNames l "id" (by decide)
    have e2 := Json.lookup_keepKnown MemoryTierRecord.fieldNames l "memory_id" (by decide)
    have e3 := Json.lookup_keepKnown MemoryTierRecord.fieldNames l "tier" (by decide)
    have e4 := Json.lookup_keepKnown MemoryTierRecord.fieldNames l "content" (by decide)
    have e5 := Json.lookup_keepKnown MemoryTierRecord.fieldNames l "created_at" (by decide)
    have e6 := Json.lookup_keepKnown MemoryTierRecord.fieldNames l "updated_at" (by decide)
    simp only [MemoryTierRecord.decode, Json.reqField, Json.defField, Json.optField, e1, e2, e3, e4, e5, e6]),
   (by
    intro l n hn hl
    simp only [MemoryRecord.requiredFields] at hn
    fin_cases hn
    all_goals
      simp only [MemoryRecord.decode, Json.reqField, hl, optionNoneBind, optionBindNone,
        Option.none_bind]),
   (by
    intro l
    have e1 := Json.lookup_keepKnown MemoryRecord.fieldNames l "id" (by decide)
    have e2 := Json.lookup_keepKnown MemoryRecord.fieldNames l "scope" (by decide)
    have e3 := Json.lookup_keepKnown MemoryRecord.fieldNames l "category" (by decide)
    have e4 := Json.lookup_keepKnown MemoryRecord.fieldNames l "key" (by decide)
    have e5 := Json.lookup_keepKnown MemoryRecord.fieldNames l "tiers" (by decide)
    have e6 := Json.lookup_keepKnown MemoryRecord.fieldNames l "metadata" (by decide)
    have e7 := Json.lookup_keepKnown MemoryRecord.fieldNames l "tags" (by decide)
    have e8 := Json.lookup_keepKnown MemoryRecord.fieldNames l "agent_id" (by decide)
    have e9 := Json.lookup_keepKnown MemoryRecord.fieldNames l "run_id" (by decide)
    have e10 := Json.lookup_keepKnown MemoryRecord.fieldNames l "skill_id" (by decide)
    have e11 := Json.lookup_keepKnown MemoryRecord.fieldNames l "relevance_score" (by decide)
    have e12 := Json.lookup_keepKnown MemoryRecord.fieldNames l "access_count" (by decide)
    have e13 := Json.lookup_keepKnown MemoryRecord.fieldNames l "created_at" (by decide)
    have e14 := Json.lookup_keepKnown MemoryRecord.fieldNames l "updated_at" (by decide)
    simp only [MemoryRecord.decode, Json.reqField, Json.defField, Json.optField, e1, e2, e3, e4, e5, e6, e7, e8, e9, e10, e11, e12, e13, e14]),
   (fun i sc cat key ca ua => rfl),
   (by
    intro l n hn hl
    simp only [MemoryResult.requiredFields] at hn
    fin_cases hn
    all_goals
      simp only [MemoryResult.decode, Json.reqField, hl, optionNoneBind, optionBindNone,
        Option.none_bind]),
   (by
    intro l
    have e1 := Json.lookup_keepKnown MemoryResult.fieldNames l "memories" (by decide)
    have e2 := Json.lookup_keepKnown MemoryResult.fieldNames l "count" (by decide)
    simp only [MemoryResult.decode, Json.reqField, Json.defField, Json.optField, e1, e2]),
   (by
    intro l n hn hl
    simp only [MemoryChanged.requiredFields] at hn
    fin_cases hn
    all_goals
      simp only [MemoryChanged.decode, Json.reqField, hl, optionNoneBind, optionBindNone,
        Option.none_bind]),
   (by
    intro l
    have e1 := Json.lookup_keepKnown MemoryChanged.fieldNames l "action" (by decide)
    have e2 := Json.lookup_keepKnown MemoryChanged.fieldNames l "memory" (by decide)
    have e3 := Json.lookup_keepKnown MemoryChanged.fieldNames l "memory_id" (by decide)
    simp only [MemoryChanged.decode, Json.reqField, Json.defField, Json.optField, e1, e2, e3]),
   (fun action => rfl),
   (by
    intro l n hn hl
    simp only [TaskInvite.requiredFields] at hn
    fin_cases hn
    all_goals
      simp only [TaskInvite.decode, Json.reqField, hl, optionNoneBind, optionBindNone,
        Option.none_bind]),
   (by
    intro l
    have e1 := Json.lookup_keepKnown TaskInvite.fieldNames l "task_id" (by decide)
    have e2 := Json.lookup_keepKnown TaskInvite.fieldNames l "task_type" (by decide)
    have e3 := Json.lookup_keepKnown TaskInvite.fieldNames l "payload" (by decide)
    simp only [TaskInvite.decode, Json.reqField, Json.defField, Json.optField, e1, e2, e3]),
   (fun tid tt => rfl),
   (by
    intro l n hn hl
    simp only [TaskOutput.requiredFields] at hn
    fin_cases hn
    all_goals
      simp only [TaskOutput.decode, Json.reqField, hl, optionNoneBind, optionBindNone,
        Option.none_bind]),
   (by
    intro l
    have e1 := Json.lookup_keepKnown TaskOutput.fieldNames l "task_id" (by decide)
    have e2 := Json.lookup_keepKnown TaskOutput.fieldNames l "request_id" (by decide)
    have e3 := Json.lookup_keepKnown TaskOutput.fieldNames l "source" (by decide)
    have e4 := Json.lookup_keepKnown TaskOutput.fieldNames l "delta" (by decide)
    have e5 := Json.lookup_keepKnown TaskOutput.fieldNames l "chunk_index" (by decide)
    have e6 := Json.lookup_keepKnown TaskOutput.fieldNames l "is_final" (by decide)
    simp only [TaskOutput.decode, Json.reqField, Json.defField, Json.optField, e1, e2, e3, e4, e5, e6]),
   (fun t r src d => rfl),
   (by
    intro l n hn hl
    simp only [TaskEvaluate.requiredFields] at hn
    fin_cases hn
    all_goals
      simp only [TaskEvaluate.decode, Json.reqField, hl, optionNoneBind, optionBindNone,
        Option.none_bind]),
   (by
    intro l
    have e1 := Json.lookup_keepKnown TaskEvaluate.fieldNames l "task_id" (by decide)
    have e2 := Json.lookup_keepKnown TaskEvaluate.fieldNames l "task_type" (by decide)
    have e3 := Json.lookup_keepKnown TaskEvaluate.fieldNames l "output_summary" (by decide)
    have e4 := Json.lookup_keepKnown TaskEvaluate.fieldNames l "exit_code" (by decide)
    have e5 := Json.lookup_keepKnown TaskEvaluate.fieldNames l "latency_ms" (by decide)
    have e6 := Json.lookup_keepKnown TaskEvaluate.fieldNames l "metadata" (by decide)
    simp only [TaskEvaluate.decode, Json.reqField, Json.defField, Json.optField, e1, e2, e3, e4, e5, e6]),
   (fun tid tt => rfl),
   (by
    intro l n hn hl
    simp only [TaskSummary.requiredFields] at hn
    fin_cases hn
    all_goals
      simp only [TaskSummary.decode, Json.reqField, hl, optionNoneBind, optionBindNone,
        Option.none_bind]),
   (by
    intro l
    have e1 := Json.lookup_keepKnown TaskSummary.fieldNames l "task_id" (by decide)
    have e2 := Json.lookup_keepKnown TaskSummary.fieldNames l "agent_id" (by decide)
    have e3 := Json.lookup_keepKnown TaskSummary.fieldNames l "summary" (by decide)
    have e4 := Json.lookup_keepKnown TaskSummary.fieldNames l "score" (by decide)
    have e5 := Json.lookup_keepKnown TaskSummary.fieldNames l "tags" (by decide)
    have e6 := Json.lookup_keepKnown TaskSummary.fieldNames l "evaluation" (by decide)
    simp only [TaskSummary.decode, Json.reqField, Json.defField, Json.optField, e1, e2, e3, e4, e5, e6]),
   (fun tid aid sm => rfl)⟩

/-- Claim C3, witness: an `AgentRegister` object carrying `role` and
`capabilities` but no `agent_id` is rejected; an `AgentRegister` object with
an unknown extra field is accepted; a `TaskOutput` object with an unknown
extra field and `is_final` absent is accepted with `is_final = false`; a
`MemoryStore` object missing `category` is rejected; a `TaskInvite` object
without `payload` defaults it to `null`. -/
theorem C3_witness :
    AgentRegister.decode (Json.obj
      [("role", Json.str "learning"), ("capabilities", Json.arr [])]) = none ∧
    AgentRegister.decode (Json.obj
      [("shiny_new_field", Json.bool true), ("agent_id", Json.str "a1"),
       ("role", Json.str "learning"),
       ("capabilities", Json.arr [Json.str "discover"])]) =
      some ⟨"a1", .learning, ["discover"]⟩ ∧
    TaskOutput.decode (Json.obj
      [("some_future_field", Json.bool true), ("task_id", Json.str "t1"),
       ("request_id", Json.str "r1"), ("source", Json.str "llm"),
       ("delta", Json.str "hello"), ("chunk_index", Json.num 0)]) =
      some ⟨"t1", "r1", "llm", "hello", 0, false⟩ ∧
    MemoryStore.decode (Json.obj [("scope", Json.str "agent")]) = none ∧
    TaskInvite.decode (Json.obj
      [("task_id", Json.str "t1"), ("task_type", Json.str "build")]) =
      some ⟨"t1", "build", Json.null⟩ := by
  obtain ⟨hrAgentRegister, huAgentRegister, hrAgentStatus, huAgentStatus, hrAgentSkillReport, huAgentSkillReport, hdAgentSkillReport, hrAgentHealth, huAgentHealth, hrKingCommand, huKingCommand, hrKingConfigUpdate, huKingConfigUpdate, hrPipelineNext, huPipelineNext, hrHealthCheck, huHealthCheck, hdHealthCheck, hrPipelineStageResult, huPipelineStageResult, hdPipelineStageResult, hrTaskCreate, huTaskCreate, hdTaskCreate, hrTaskUpdate, huTaskUpdate, hdTaskUpdate, hrTaskGet, huTaskGet, hrTaskList, huTaskList, hdTaskList, hrTaskDelete, huTaskDelete, hrTaskRecord, huTaskRecord, hdTaskRecord, hrMemoryTierEntry, huMemoryTierEntry, hrMemoryStore, huMemoryStore, hdMemoryStore, hrMemoryQuery, huMemoryQuery, hdMemoryQuery, hrMemoryTierRecord, huMemoryTierRecord, hrMemoryRecord, huMemoryRecord, hdMemoryRecord, hrMemoryResult, huMemoryResult, hrMemoryChanged, huMemoryChanged, hdMemoryChanged, hrTaskInvite, huTaskInvite, hdTaskInvite, hrTaskOutput, huTaskOutput, hdTaskOutput, hrTaskEvaluate, huTaskEvaluate, hdTaskEvaluate, hrTaskSummary, huTaskSummary, hdTaskSummary⟩ :=
    C3_required_default_unknown_fields
  refine ⟨hrAgentRegister _ "agent_id" (by decide) rfl, ?_, ?_,
    hrMemoryStore _ "category" (by decide) rfl, hdTaskInvite "t1" "build"⟩
  · exact (huAgentRegister
      [("shiny_new_field", Json.bool true), ("agent_id", Json.str "a1"),
       ("role", Json.str "learning"),
       ("capabilities", Json.arr [Json.str "discover"])]).symm.trans (by rfl)
  · exact (huTaskOutput
      [("some_future_field", Json.bool true), ("task_id", Json.str "t1"),
       ("request_id", Json.str "r1"), ("source", Json.str "llm"),
       ("delta", Json.str "hello"), ("chunk_index", Json.num 0)]).symm.trans (by rfl)

/-- Claim C4: `TaskList` deserialized from the empty object yields
`limit = 50` with all filters absent, and `MemoryQuery` deserialized from an
object carrying only `query` yields `limit = 20` with all filters absent. -/
theorem C4_limit_defaults (q : String) :
    TaskList.decode (Json.obj []) = some ⟨50, none, none, none⟩ ∧
    MemoryQuery.decode (Json.obj [("query", Json.str q)]) =
      some ⟨q, none, none, none, none, none, 20⟩ :=
  ⟨rfl, rfl⟩

/-- Claim C5, counterexample: the claim asserts a successfully deserialized
`TaskCreate` never has a null payload, but an input carrying an explicit
`"payload": null` deserializes successfully with `payload = null` (the serde
default only fires on absence, and `serde_json::Value` accepts `null`). -/
theorem C5_counterexample :
    (TaskCreate.decode (Json.obj
      [("task_type", Json.str "build"), ("payload", Json.null)])).isSome = true ∧
    (TaskCreate.decode (Json.obj
      [("task_type", Json.str "build"), ("payload", Json.null)])).map
        TaskCreate.payload = some Json.null :=
  ⟨rfl, rfl⟩

/-- Claim C5, amended: deserializing `TaskCreate` from any object that omits
the `payload` field yields `payload` equal to the empty JSON object (the
default is never null or absent); an input carrying an explicit null payload
is, however, accepted with `payload = null`. -/
theorem C5_payload_default (l : List (String × Json))
    (h : Json.lookup l "payload" = none)
    (c : TaskCreate) (hc : TaskCreate.decode (Json.obj l) = some c) :
    c.payload = default_empty_object := by
  simp only [TaskCreate.decode, Json.defField, h, Option.bind_eq_bind, Option.bind_eq_some,
    Option.some_bind, Option.pure_def, Option.some.injEq] at hc
  obtain ⟨tt, h1, a, h2, pid, h3, rfl⟩ := hc
  rfl

/-- Claim C5, witness: `TaskCreate` deserialized from an object with only
`task_type` has payload equal to the empty object. -/
theorem C5_witness :
    TaskCreate.decode (Json.obj [("task_type", Json.str "t")]) =
      some ⟨"t", none, default_empty_object, none⟩ ∧
    TaskCreate.payload ⟨"t", none, default_empty_object, none⟩ =
      default_empty_object :=
  ⟨rfl, C5_payload_default [("task_type", Json.str "t")] rfl
    ⟨"t", none, default_empty_object, none⟩ rfl⟩

/-- Claim C6: `AgentRole.user "qa-bot"` serializes to the tagged one-entry
map and round-trips to itself, and a role string naming none of the known
variants fails to deserialize. -/
theorem C6_user_role_roundtrip (s : String)
    (h : s ∉ ["skill_manage", "learning", "pre_load", "building", "evaluation", "user"]) :
    AgentRole.encode (.user "qa-bot") = Json.obj [("user", Json.str "qa-bot")] ∧
    AgentRole.decode (AgentRole.encode (.user "qa-bot")) = some (.user "qa-bot") ∧
    AgentRole.decode (Json.str s) = none := by
  simp only [List.mem_cons, List.not_mem_nil, or_false, not_or] at h
  obtain ⟨h1, h2, h3, h4, h5, h6⟩ := h
  refine ⟨rfl, rfl, ?_⟩
  show AgentRole.unitVariants.find? (fun r => r.wire == s) = none
  rw [List.find?_eq_none]
  intro r hr
  fin_cases hr <;>
    simp only [AgentRole.wire, AgentRole.variantName, snakeCase, snakeCaseChars,
      beq_iff_eq] <;>
    first
    | exact fun e => h1 e.symm
    | exact fun e => h2 e.symm
    | exact fun e => h3 e.symm
    | exact fun e => h4 e.symm
    | exact fun e => h5 e.symm

/-- Claim C6, witness: the round trip at `"qa-bot"`, and failure of the
unknown role string `"qa-bot"` itself. -/
theorem C6_witness :
    AgentRole.encode (.user "qa-bot") = Json.obj [("user", Json.str "qa-bot")] ∧
    AgentRole.decode (AgentRole.encode (.user "qa-bot")) = some (.user "qa-bot") ∧
    AgentRole.decode (Json.str "qa-bot") = none :=
  C6_user_role_roundtrip "qa-bot" (by decide)

/-- Claim C7: a task in a terminal status (`completed`, `failed`,
`cancelled`) rejects every `TaskUpdate` carrying a different status (the
update yields no new state, leaving the status unchanged); from `pending` a
task may move to `inProgress`, from `inProgress` to each of the three
terminal states, and a terminal state allows no outgoing transition at all —
so exactly one terminal state is ever reached. -/
theorem C7_task_lifecycle (cur s : TaskStatus) (u : TaskUpdate)
    (hterm : cur.isTerminal = true) (hs : u.status = some s) (hne : s ≠ cur) :
    applyTaskUpdate cur u = none ∧
    taskTransitionAllowed .pending .inProgress = true ∧
    (∀ t : TaskStatus, t.isTerminal = true → taskTransitionAllowed .inProgress t = true) ∧
    (∀ t t2 : TaskStatus, t.isTerminal = true → taskTransitionAllowed t t2 = false) := by
  have hforbid : ∀ t t2 : TaskStatus, t.isTerminal = true →
      taskTransitionAllowed t t2 = false := by
    intro t t2 ht
    cases t <;> simp_all [TaskStatus.isTerminal] <;> cases t2 <;> rfl
  refine ⟨?_, rfl, ?_, hforbid⟩
  · simp only [applyTaskUpdate, hs]
    rw [if_neg hne, hforbid cur s hterm]
    rfl
  · intro t ht
    cases t <;> first | rfl | simp_all [TaskStatus.isTerminal]

/-- Claim C7, witness: a completed task rejects an update that tries to set
it back to `pending`. -/
theorem C7_witness :
    applyTaskUpdate .completed ⟨"task-1", some .pending, none, none⟩ = none :=
  (C7_task_lifecycle .completed .pending ⟨"task-1", some .pending, none, none⟩
    rfl rfl (by decide)).1

/-- Claim C8: `TaskOutput` deserialized from an object carrying `task_id`,
`request_id`, `source`, `delta` and `chunk_index` but no `is_final` succeeds
with `is_final = false`; omitting any one of the five other fields is
rejected, so `is_final` is the only optional field. -/
theorem C8_task_output_is_final (t r src d : String) (n : Rat) (c : Nat)
    (h : Json.asU32 (Json.num n) = some c) :
    TaskOutput.decode (Json.obj
      [("task_id", Json.str t), ("request_id", Json.str r), ("source", Json.str src),
       ("delta", Json.str d), ("chunk_index", Json.num n)]) =
      some ⟨t, r, src, d, c, false⟩ ∧
    TaskOutput.decode (Json.obj
      [("request_id", Json.str "r1"), ("source", Json.str "llm"),
       ("delta", Json.str "x"), ("chunk_index", Json.num 0)]) = none ∧
    TaskOutput.decode (Json.obj
      [("task_id", Json.str "t1"), ("source", Json.str "llm"),
       ("delta", Json.str "x"), ("chunk_index", Json.num 0)]) = none ∧
    TaskOutput.decode (Json.obj
      [("task_id", Json.str "t1"), ("request_id", Json.str "r1"),
       ("delta", Json.str "x"), ("chunk_index", Json.num 0)]) = none ∧
    TaskOutput.decode (Json.obj
      [("task_id", Json.str "t1"), ("request_id", Json.str "r1"),
       ("source", Json.str "llm"), ("chunk_index", Json.num 0)]) = none ∧
    TaskOutput.decode (Json.obj
      [("task_id", Json.str "t1"), ("request_id", Json.str "r1"),
       ("source", Json.str "llm"), ("delta", Json.str "x")]) = none := by
  refine ⟨?_, rfl, rfl, rfl, rfl, rfl⟩
  simp [TaskOutput.decode, Json.reqField, Json.defField, Json.lookup, Json.asString, h]

/-- Claim C8, witness: the success case at concrete field values with
`chunk_index = 2`. -/
theorem C8_witness :
    TaskOutput.decode (Json.obj
      [("task_id", Json.str "t1"), ("request_id", Json.str "r1"),
       ("source", Json.str "llm"), ("delta", Json.str "hello"),
       ("chunk_index", Json.num 2)]) =
      some ⟨"t1", "r1", "llm", "hello", 2, false⟩ :=
  (C8_task_output_is_final "t1" "r1" "llm" "hello" 2 2 rfl).1

/-- Claim C9: `MemoryStore` deserialized from an object carrying only `scope`
and `category` succeeds, with `key`, `agent_id`, `run_id`, `skill_id` all the
empty string, `relevance_score = 0`, `tags` and `tiers` empty, `metadata` the
empty object, and `task_id` absent. -/
theorem C9_memory_store_defaults (sc : MemoryScope) (cat : MemoryCategory) :
    MemoryStore.decode (Json.obj
      [("scope", MemoryScope.encode sc), ("category", MemoryCategory.encode cat)]) =
      some ⟨sc, cat, "", default_empty_object, [], "", "", "", 0, [], none⟩ := by
  cases sc <;> cases cat <;> rfl

/-- Claim C10: `ProviderConfig` deserialized from an object carrying only the
required `name`, `base_url` and `enabled` yields
`provider_type = openAiCompatible`, empty `api_key_envs`, `extra_headers`
and `models`, and `rate_limit` absent. -/
theorem C10_provider_config_defaults (name base_url : String) (enabled : Bool) :
    ProviderConfig.decode (Json.obj
      [("name", Json.str name), ("base_url", Json.str base_url),
       ("enabled", Json.bool enabled)]) =
      some ⟨name, base_url, [], enabled, .openAiCompatible, [], none, []⟩ :=
  rfl
